import Mathlib

/-!
# The place client: interaction controller

A shallow embedding of `reddit_place/public/static/js/place/client.js`.

The controller object is the record `Client`.  Its collaborators (audio, hand,
canvas, camera, the remote API, the timer queue and the jQuery deferreds) are
kept as logs and queues in `World`, so that every method of the source is a
function from worlds to worlds.  Numbers that are animated (zoom and pan) are
rationals; clock values and durations are integers (milliseconds).
-/

namespace Place

/-! ## Sound clips -/

/-- A clip is the array of its notes: a note name and a duration `num/den`. -/
abbrev Clip := List (String × Nat × Nat)

/-- Modelled from the spec: `AudioManager.compileClip` belongs to the audio
collaborator, which is outside this file; a compiled clip is taken to be the
array of the notes it was compiled from, in order (the source applies
`slice().reverse()` to one). -/
def compileClip (notes : Clip) : Clip := notes

def SFX_DROP : Clip := compileClip [("E7", 1, 32), ("C7", 1, 32), ("A6", 1, 16)]
def SFX_PLACE : Clip := compileClip [("G7", 1, 32), ("E7", 1, 32), ("C6", 1, 16)]
def SFX_SELECT : Clip := compileClip [("C7", 1, 32), ("E7", 1, 32), ("G8", 1, 16)]
def SFX_ERROR : Clip := compileClip [("E4", 1, 32), ("C4", 1, 32), ("A3", 1, 16)]
def SFX_ZOOM_OUT : Clip := SFX_DROP
def SFX_ZOOM_IN : Clip := SFX_ZOOM_OUT.reverse

/-! ## Constants -/

def ZOOM_LERP_SPEED : ℚ := 2 / 10
def PAN_LERP_SPEED : ℚ := 4 / 10
def ZOOM_MAX_SCALE : ℚ := 40
def ZOOM_MIN_SCALE : ℚ := 4

/-- Modelled from the spec: `lerp` comes from the `utils` module, which is
outside this file; the spec gives `lerp(a, b, t) = a + (b - a) * t`. -/
def lerp (a b t : ℚ) : ℚ := a + (b - a) * t

/-! ## State -/

/-- The fields of the object returned by the module. The fields `_panX`,
`_panY` and `_zoom` track the values currently applied, the fields `panX`,
`panY` and `zoom` the targets. -/
structure Client where
  color : Option String
  cooldown : Int
  cooldownEndTime : Int
  cooldownPromise : Option Nat
  enabled : Bool
  isZoomedIn : Bool
  panX : ℚ
  panY : ℚ
  zoom : ℚ
  _panX : ℚ
  _panY : ℚ
  _zoom : ℚ
  deriving DecidableEq

/-- Calls received by the cursor indicator (`Hand`). -/
inductive HandCall where
  | updateColor (color : String)
  | clearColor
  deriving DecidableEq

/-- Calls received by the camera. -/
inductive CameraCall where
  | updateScale (zoom : ℚ)
  | updateTranslate (x y : ℚ)
  deriving DecidableEq

/-- A pending `setTimeout(onTimeout, delay)` of `setCooldownTime`: the deferred
its callback closes over, the delay, and the clock value when it was set. -/
structure Timer where
  deferred : Nat
  delay : Int
  setAt : Int
  deriving DecidableEq

/-- The error response of a failed draw request. -/
structure Failure where
  waitSeconds : Int
  deriving DecidableEq

/-- The controller together with everything it talks to.
* `now` is what `Date.now()` returns.
* `globalRes` is what the free identifier `res` resolves to: the module binds
  no such name, so it is looked up in the global scope of the hosting page;
  `none` means unbound, `some s` a global object whose `wait_seconds` is `s`.
* `audio`, `hand`, `canvas`, `camera` log the calls made to the collaborators.
* `queries` counts `getTimeToWait` requests not answered yet, `draws` lists
  the `draw(x, y, color)` requests not answered yet.
* `timers` are the pending timeouts; `deferreds` counts the deferreds created
  (a deferred is named by its creation index); `resolved` logs each
  `deferred.resolve()` together with the controller as its callbacks see it.
* `uncaught` logs exceptions thrown out of a callback. -/
structure World where
  client : Client
  now : Int
  globalRes : Option Int
  audio : List Clip
  hand : List HandCall
  canvas : List (Int × Int × Option String)
  camera : List CameraCall
  queries : Nat
  draws : List (Int × Int × Option String)
  timers : List Timer
  deferreds : Nat
  resolved : List (Nat × Client)
  uncaught : List String
  deriving DecidableEq

/-- The object literal of the source. -/
def Client.fresh : Client :=
  { color := none, cooldown := 0, cooldownEndTime := 0, cooldownPromise := none,
    enabled := true, isZoomedIn := false, panX := 0, panY := 0, zoom := 1,
    _panX := 0, _panY := 0, _zoom := 1 }

/-- The page before `init`: a fresh controller and idle collaborators. -/
def World.fresh (now : Int) (globalRes : Option Int) : World :=
  { client := Client.fresh, now := now, globalRes := globalRes, audio := [], hand := [],
    canvas := [], camera := [], queries := 0, draws := [], timers := [], deferreds := 0,
    resolved := [], uncaught := [] }

/-! ## JavaScript conversions -/

/-- Truthiness of a value that is `null`/`undefined` or a string. -/
def truthy (v : Option String) : Bool :=
  match v with
  | none => false
  | some s => s != ""

/-- The conversion `v|0` of a number or `undefined` to a signed 32 bit integer. -/
def toInt32 (v : Option ℚ) : Int :=
  match v with
  | none => 0
  | some q => (Int.tdiv q.num q.den + 2 ^ 31) % 2 ^ 32 - 2 ^ 31

/-! ## Methods -/

def playClip (w : World) (clip : Clip) : World :=
  { w with audio := w.audio ++ [clip] }

def disable (w : World) : World :=
  { w with client := { w.client with enabled := false } }

def enable (w : World) : World :=
  { w with client := { w.client with enabled := true } }

/-- The callback `onTimeout` of `setCooldownTime`, closed over `deferred`. -/
def setCooldownTime.onTimeout (w : World) (deferred : Nat) : World :=
  let w1 := enable w
  let w2 := { w1 with resolved := w1.resolved ++ [(deferred, w1.client)] }
  { w2 with client := { w2.client with cooldownPromise := none } }

/-- The method `setCooldownTime`: the returned promise and the new world. -/
def setCooldownTime (w : World) (cooldownTime : Int) : Nat × World :=
  let currentTime := w.now
  let w1 := { w with client := { w.client with cooldownEndTime := currentTime + cooldownTime } }
  let deferred := w1.deferreds
  let w2 := { w1 with deferreds := w1.deferreds + 1 }
  let w3 := { w2 with timers := w2.timers ++ [Timer.mk deferred cooldownTime w2.now] }
  let w4 := { w3 with client := { w3.client with cooldownPromise := some deferred } }
  (deferred, w4)

/-- A promise handed out by `whenCooldownEnds`: the tracked one, or a new
deferred that was resolved before it was returned. -/
inductive Handle where
  | tracked (deferred : Nat)
  | resolvedNow (deferred : Nat)
  deriving DecidableEq

def whenCooldownEnds (w : World) : Handle × World :=
  match w.client.cooldownPromise with
  | some p => (Handle.tracked p, w)
  | none =>
    let deferred := w.deferreds
    let w1 := { w with deferreds := w.deferreds + 1 }
    let w2 := { w1 with resolved := w1.resolved ++ [(deferred, w1.client)] }
    (Handle.resolvedNow deferred, w2)

def getCooldownTimeRemaining (w : World) : Int :=
  let currentTime := w.now
  let timeRemaining := w.client.cooldownEndTime - currentTime
  max 0 timeRemaining

/-- The method `tick`; the pairs carry the local `didOffsetUpdate`. -/
def tick (w : World) : World :=
  let w1 :=
    if w.client._zoom ≠ w.client.zoom then
      let w0 := { w with client := { w.client with _zoom := lerp w.client._zoom w.client.zoom ZOOM_LERP_SPEED } }
      { w0 with camera := w0.camera ++ [CameraCall.updateScale w0.client._zoom] }
    else w
  let r0 : World × Bool := (w1, false)
  let r1 : World × Bool :=
    if r0.1.client._panX ≠ r0.1.client.panX then
      ({ r0.1 with client := { r0.1.client with _panX := lerp r0.1.client._panX r0.1.client.panX PAN_LERP_SPEED } }, true)
    else r0
  let r2 : World × Bool :=
    if r1.1.client._panY ≠ r1.1.client.panY then
      ({ r1.1 with client := { r1.1.client with _panY := lerp r1.1.client._panY r1.1.client.panY PAN_LERP_SPEED } }, true)
    else r1
  if r2.2 then
    { r2.1 with camera := r2.1.camera ++ [CameraCall.updateTranslate r2.1.client._panX r2.1.client._panY] }
  else r2.1

/-- The method `setColor`; `playSFX = none` is an omitted argument. -/
def setColor (w : World) (color : String) (playSFX : Option Bool) : World :=
  let playSFX := match playSFX with
    | none => true
    | some b => b
  if !w.client.enabled then
    if playSFX then playClip w SFX_ERROR else w
  else
    let w1 := { w with client := { w.client with color := some color } }
    let w2 := { w1 with hand := w1.hand ++ [HandCall.updateColor color] }
    if playSFX then playClip w2 SFX_SELECT else w2

def setZoom (w : World) (zoomLevel : ℚ) : World :=
  let w1 := { w with client := { w.client with zoom := zoomLevel, _zoom := zoomLevel } }
  { w1 with camera := w1.camera ++ [CameraCall.updateScale w1.client._zoom] }

def setOffset (w : World) (x y : ℚ) : World :=
  let w1 := { w with client := { w.client with panX := x, _panX := x } }
  let w2 := { w1 with client := { w1.client with panY := y, _panY := y } }
  { w2 with camera := w2.camera ++ [CameraCall.updateTranslate w2.client._panX w2.client._panY] }

def setTargetZoom (w : World) (zoomLevel : ℚ) : World :=
  { w with client := { w.client with zoom := zoomLevel } }

def setTargetOffset (w : World) (x y : ℚ) : World :=
  { w with client := { w.client with panX := x, panY := y } }

/-- The method `drawTile` up to and including the call of `R2Server.draw`. -/
def drawTile (w : World) (x y : Int) : World :=
  if !truthy w.client.color || !w.client.enabled then
    playClip w SFX_ERROR
  else
    let w1 := disable w
    { w1 with draws := w1.draws ++ [(x, y, w1.client.color)] }

/-- The callback `onSuccess` of `drawTile`, closed over `x` and `y`. -/
def drawTile.onSuccess (w : World) (x y : Int) (responseJSON : String) : World :=
  let _ := responseJSON
  let w1 := { w with canvas := w.canvas ++ [(x, y, w.client.color)] }
  let w2 := playClip w1 SFX_PLACE
  let w3 := { w2 with hand := w2.hand ++ [HandCall.clearColor] }
  let w4 := { w3 with client := { w3.client with color := none } }
  (setCooldownTime w4 w4.client.cooldown).2

/-- The callback `onError` of `drawTile`. Its parameters are `jqXHR`, `status`
and `statusText`; the wait time is read from the free identifier `res`. -/
def drawTile.onError (w : World) (x y : Int) (jqXHR : Failure) : World :=
  let _ := (x, y, jqXHR)
  let w1 := playClip w SFX_ERROR
  match w1.globalRes with
  | none => { w1 with uncaught := w1.uncaught ++ ["ReferenceError: res is not defined"] }
  | some wait_seconds =>
    let cooldownTime := 1000 * wait_seconds
    (setCooldownTime w1 cooldownTime).2

def toggleZoom (w : World) : World :=
  let w1 :=
    if w.client.isZoomedIn then playClip (setTargetZoom w ZOOM_MIN_SCALE) SFX_ZOOM_OUT
    else playClip (setTargetZoom w ZOOM_MAX_SCALE) SFX_ZOOM_IN
  { w1 with client := { w1.client with isZoomedIn := !w1.client.isZoomedIn } }

/-- The callback `onSuccess` of `init`. -/
def init.onSuccess (w : World) (waitTime : Int) : World :=
  (setCooldownTime w waitTime).2

/-- The callback `onError` of `init`. -/
def init.onError (w : World) : World :=
  (setCooldownTime w 0).2

/-- The method `init` up to and including the call of `getTimeToWait`;
`none` is an argument that is `undefined` (or, for `color`, `null`). -/
def init (w : World) (isEnabled : Bool) (cooldown : Int) (color : Option String)
    (isZoomedIn : Option Bool) (panX panY : Option ℚ) : World :=
  let w1 := { w with client := { w.client with enabled := false } }
  let w2 := { w1 with client := { w1.client with cooldown := cooldown } }
  let w3 := match color with
    | some c => if truthy (some c) then setColor w2 c (some false) else w2
    | none => w2
  let z := match isZoomedIn with
    | some b => b
    | none => true
  let w4 := { w3 with client := { w3.client with isZoomedIn := z } }
  let w5 := setZoom w4 (if w4.client.isZoomedIn then ZOOM_MAX_SCALE else ZOOM_MIN_SCALE)
  let w6 := setOffset w5 (toInt32 panX) (toInt32 panY)
  if !isEnabled then w6
  else { w6 with queries := w6.queries + 1 }

/-! ## Runs -/

/-- What the user can do to the controller after `init`. -/
inductive Intent where
  | selectColor (color : String) (announce : Option Bool)
  | requestDraw (x y : Int)
  | toggleZoom
  | tick
  | setZoom (zoomLevel : ℚ)
  | setOffset (x y : ℚ)
  | setTargetZoom (zoomLevel : ℚ)
  | setTargetOffset (x y : ℚ)
  deriving DecidableEq

def Intent.apply (w : World) (i : Intent) : World :=
  match i with
  | Intent.selectColor color announce => Place.setColor w color announce
  | Intent.requestDraw x y => Place.drawTile w x y
  | Intent.toggleZoom => Place.toggleZoom w
  | Intent.tick => Place.tick w
  | Intent.setZoom zoomLevel => Place.setZoom w zoomLevel
  | Intent.setOffset x y => Place.setOffset w x y
  | Intent.setTargetZoom zoomLevel => Place.setTargetZoom w zoomLevel
  | Intent.setTargetOffset x y => Place.setTargetOffset w x y

/-- Everything that can happen to the controller after `init`: a user intent,
the answer to the cooldown query, the answer to the `k`-th draw request in
flight, the `k`-th pending timeout firing, and the clock moving on. -/
inductive Event where
  | intent (i : Intent)
  | queryOk (waitTime : Int)
  | queryFailed
  | drawOk (k : Nat) (responseJSON : String)
  | drawFailed (k : Nat) (jqXHR : Failure)
  | timeout (k : Nat)
  | elapse (ms : Nat)
  deriving DecidableEq

/-- The `k`-th pending timeout fires; it can only do so once its delay has
passed (a negative delay counts as none). -/
def fireTimer (w : World) (k : Nat) : World :=
  match w.timers[k]? with
  | none => w
  | some t =>
    if t.setAt + max 0 t.delay ≤ w.now then
      setCooldownTime.onTimeout { w with timers := w.timers.eraseIdx k } t.deferred
    else w

/-- One event; an event that cannot happen in `w` (an answer nobody waits for,
a timeout that is not due) leaves `w` as it is. -/
def step (w : World) (e : Event) : World :=
  match e with
  | Event.intent i => i.apply w
  | Event.queryOk waitTime =>
    if w.queries = 0 then w else init.onSuccess { w with queries := w.queries - 1 } waitTime
  | Event.queryFailed =>
    if w.queries = 0 then w else init.onError { w with queries := w.queries - 1 }
  | Event.drawOk k responseJSON =>
    match w.draws[k]? with
    | none => w
    | some d => drawTile.onSuccess { w with draws := w.draws.eraseIdx k } d.1 d.2.1 responseJSON
  | Event.drawFailed k jqXHR =>
    match w.draws[k]? with
    | none => w
    | some d => drawTile.onError { w with draws := w.draws.eraseIdx k } d.1 d.2.1 jqXHR
  | Event.timeout k => fireTimer w k
  | Event.elapse ms => { w with now := w.now + ms }

def run (w : World) (es : List Event) : World := es.foldl step w

/-! ## A sample session -/

/-- A logged-in page at clock 1000 with a cooldown of five minutes. -/
def sampleInit : World := init (World.fresh 1000 none) true 300000 none none none none

/-- The session up to the draw request: the cooldown query answers 0, the
timeout fires, the user picks red and clicks the tile (3, 4). -/
def sampleEvents : List Event :=
  [Event.queryOk 0, Event.timeout 0, Event.intent (Intent.selectColor "#ff0000" none),
   Event.intent (Intent.requestDraw 3 4)]

def sampleSelected : World := run sampleInit (sampleEvents.take 3)

def sampleDrawing : World := run sampleInit sampleEvents

/-! ## The gate invariant -/

/-- The gate: between them, the draw requests in flight, the pending timeouts,
the unanswered cooldown query and an open gate (`enabled`) number at most one;
a request in flight carries the color the client still holds; and
`cooldown` is the value given to `init`. -/
def Inv (cooldown : Int) (w : World) : Prop :=
  w.draws.length + w.timers.length + w.queries + (if w.client.enabled then 1 else 0) ≤ 1 ∧
  (∀ d ∈ w.draws, d.2.2 = w.client.color) ∧
  w.client.cooldown = cooldown

/-- A locked controller: the gate is shut and nothing is outstanding that
could open it again. -/
def Locked (w : World) : Prop :=
  w.client.enabled = false ∧ w.draws = [] ∧ w.timers = [] ∧ w.queries = 0

/-- The controller after `init` on the fresh page followed by the events `es`. -/
def session (now : Int) (globalRes : Option Int) (isEnabled : Bool) (cooldown : Int)
    (color : Option String) (isZoomedIn : Option Bool) (panX panY : Option ℚ)
    (es : List Event) : World :=
  run (init (World.fresh now globalRes) isEnabled cooldown color isZoomedIn panX panY) es

/-! ## Frames of the animation loop -/

/-- The first statement of `tick`: the zoom. -/
def tick.zoomPart (w : World) : World :=
  if w.client._zoom ≠ w.client.zoom then
    let w0 := { w with client := { w.client with _zoom := lerp w.client._zoom w.client.zoom ZOOM_LERP_SPEED } }
    { w0 with camera := w0.camera ++ [CameraCall.updateScale w0.client._zoom] }
  else w

/-- The rest of `tick`: the two offsets and the local `didOffsetUpdate`. -/
def tick.panPart (w : World) : World :=
  let r0 : World × Bool := (w, false)
  let r1 : World × Bool :=
    if r0.1.client._panX ≠ r0.1.client.panX then
      ({ r0.1 with client := { r0.1.client with _panX := lerp r0.1.client._panX r0.1.client.panX PAN_LERP_SPEED } }, true)
    else r0
  let r2 : World × Bool :=
    if r1.1.client._panY ≠ r1.1.client.panY then
      ({ r1.1 with client := { r1.1.client with _panY := lerp r1.1.client._panY r1.1.client.panY PAN_LERP_SPEED } }, true)
    else r1
  if r2.2 then
    { r2.1 with camera := r2.1.camera ++ [CameraCall.updateTranslate r2.1.client._panX r2.1.client._panY] }
  else r2.1

/-- The pan step as the spec words it: if either axis of the current pan differs
from the target, both axes are recomputed with `lerp(current, target, 2/5)` and
the pair is pushed to the camera in one translate update; otherwise nothing. -/
def panStepSpec (w : World) : World :=
  if w.client._panX ≠ w.client.panX ∨ w.client._panY ≠ w.client.panY then
    { w with
      client :=
        { w.client with
          _panX := lerp w.client._panX w.client.panX (2 / 5)
          _panY := lerp w.client._panY w.client.panY (2 / 5) }
      camera :=
        w.camera ++ [CameraCall.updateTranslate (lerp w.client._panX w.client.panX (2 / 5))
          (lerp w.client._panY w.client.panY (2 / 5))] }
  else w

/-- The controller after `n` calls of `tick`. -/
def ticks (n : Nat) (w : World) : World :=
  match n with
  | 0 => w
  | n + 1 => tick (ticks n w)

/-! ## Calls from the rest of the page -/

/-- What the page can do with the controller: one of the events above, or a call
of one of the methods `init`, `setCooldownTime`, `whenCooldownEnds`, `enable`
and `disable`. -/
inductive Call where
  | event (e : Event)
  | init (isEnabled : Bool) (cooldown : Int) (color : Option String)
      (isZoomedIn : Option Bool) (panX panY : Option ℚ)
  | setCooldownTime (cooldownTime : Int)
  | whenCooldownEnds
  | enable
  | disable

def Call.apply (w : World) (c : Call) : World :=
  match c with
  | Call.event e => step w e
  | Call.init isEnabled cooldown color isZoomedIn panX panY =>
    Place.init w isEnabled cooldown color isZoomedIn panX panY
  | Call.setCooldownTime cooldownTime => (Place.setCooldownTime w cooldownTime).2
  | Call.whenCooldownEnds => (Place.whenCooldownEnds w).2
  | Call.enable => Place.enable w
  | Call.disable => Place.disable w

def calls (w : World) (cs : List Call) : World := cs.foldl Call.apply w

/-- Two cooldowns of ten seconds, the second started five seconds after the
first, seen at the moment the timeout of the first has fired. -/
def sampleSuperseded : World :=
  calls (World.fresh 0 none)
    [Call.setCooldownTime 10000, Call.event (Event.elapse 5000), Call.setCooldownTime 10000,
     Call.event (Event.elapse 5000), Call.event (Event.timeout 0)]

/-- Bookkeeping of deferreds and timeouts: every timeout and every resolution is
of a deferred already created, no two pending timeouts share a deferred, no
pending timeout is of a resolved deferred, and a tracked promise is the deferred
of a pending timeout, the newest one. -/
def Tracking (w : World) : Prop :=
  (∀ t ∈ w.timers, t.deferred < w.deferreds) ∧
  (∀ r ∈ w.resolved, r.1 < w.deferreds) ∧
  (w.timers.map Timer.deferred).Nodup ∧
  (∀ t ∈ w.timers, ∀ r ∈ w.resolved, r.1 ≠ t.deferred) ∧
  (∀ p, w.client.cooldownPromise = some p →
    (∃ t ∈ w.timers, t.deferred = p) ∧ ∀ t ∈ w.timers, t.deferred ≤ p)

theorem tick_frame (w : World) :
    (tick w).draws = w.draws ∧ (tick w).timers = w.timers ∧ (tick w).queries = w.queries ∧
    (tick w).client.enabled = w.client.enabled ∧ (tick w).client.color = w.client.color ∧
    (tick w).client.cooldown = w.client.cooldown := by
  simp only [tick]
  split_ifs <;> simp

theorem toggleZoom_frame (w : World) :
    (toggleZoom w).draws = w.draws ∧ (toggleZoom w).timers = w.timers ∧
    (toggleZoom w).queries = w.queries ∧
    (toggleZoom w).client.enabled = w.client.enabled ∧
    (toggleZoom w).client.color = w.client.color ∧
    (toggleZoom w).client.cooldown = w.client.cooldown := by
  simp only [toggleZoom, setTargetZoom, playClip]
  split_ifs <;> simp

theorem inv_init (now : Int) (globalRes : Option Int) (isEnabled : Bool) (cooldown : Int)
    (color : Option String) (isZoomedIn : Option Bool) (panX panY : Option ℚ) :
    Inv cooldown (init (World.fresh now globalRes) isEnabled cooldown color isZoomedIn panX panY) := by
  cases isEnabled <;> cases color <;>
    simp [Inv, init, setColor, setZoom, setOffset, World.fresh, Client.fresh]

theorem inv_of_frame {cooldown : Int} {w w' : World} (h : Inv cooldown w)
    (hd : w'.draws = w.draws) (ht : w'.timers = w.timers) (hq : w'.queries = w.queries)
    (he : w'.client.enabled = w.client.enabled) (hc : w'.client.color = w.client.color)
    (hcd : w'.client.cooldown = w.client.cooldown) : Inv cooldown w' := by
  unfold Inv
  rw [hd, ht, hq, he, hc, hcd]
  exact h

/-- With the gate open nothing is outstanding. -/
theorem inv_open {cooldown : Int} {w : World} (h : Inv cooldown w)
    (he : w.client.enabled = true) : w.draws = [] ∧ w.timers = [] ∧ w.queries = 0 := by
  obtain ⟨h1, -, -⟩ := h
  rw [he] at h1
  simp only [if_true] at h1
  refine ⟨List.eq_nil_of_length_eq_zero (by omega), List.eq_nil_of_length_eq_zero (by omega), by omega⟩

/-- A draw request in flight is the only thing outstanding. -/
theorem inv_draw {cooldown : Int} {w : World} (h : Inv cooldown w) {k : Nat}
    {d : Int × Int × Option String} (hk : w.draws[k]? = some d) :
    w.draws = [d] ∧ k = 0 ∧ w.timers = [] ∧ w.queries = 0 ∧ w.client.enabled = false ∧
      d.2.2 = w.client.color := by
  obtain ⟨h1, h2, -⟩ := h
  have hmem : d ∈ w.draws := List.getElem?_mem hk
  cases hw : w.draws with
  | nil => rw [hw] at hk; simp at hk
  | cons a l =>
    rw [hw] at h1 hk
    simp only [List.length_cons] at h1
    have hl : l = [] := List.eq_nil_of_length_eq_zero (by omega)
    subst hl
    have hk0 : k = 0 := by
      cases k with
      | zero => rfl
      | succ n => simp at hk
    subst hk0
    simp only [List.getElem?_cons_zero, Option.some.injEq] at hk
    subst hk
    refine ⟨rfl, rfl, List.eq_nil_of_length_eq_zero (by simp at h1; omega), by simp at h1; omega, ?_, h2 _ hmem⟩
    cases he : w.client.enabled
    · rfl
    · rw [he] at h1; simp at h1

/-- A pending timeout is the only thing outstanding. -/
theorem inv_timer {cooldown : Int} {w : World} (h : Inv cooldown w) {k : Nat}
    {t : Timer} (hk : w.timers[k]? = some t) :
    w.timers = [t] ∧ k = 0 ∧ w.draws = [] ∧ w.queries = 0 ∧ w.client.enabled = false := by
  obtain ⟨h1, -, -⟩ := h
  cases hw : w.timers with
  | nil => rw [hw] at hk; simp at hk
  | cons a l =>
    rw [hw] at h1 hk
    simp only [List.length_cons] at h1
    have hl : l = [] := List.eq_nil_of_length_eq_zero (by omega)
    subst hl
    have hk0 : k = 0 := by
      cases k with
      | zero => rfl
      | succ n => simp at hk
    subst hk0
    simp only [List.getElem?_cons_zero, Option.some.injEq] at hk
    subst hk
    refine ⟨rfl, rfl, List.eq_nil_of_length_eq_zero (by simp at h1; omega), by simp at h1; omega, ?_⟩
    cases he : w.client.enabled
    · rfl
    · rw [he] at h1; simp at h1

/-- An unanswered cooldown query is the only thing outstanding. -/
theorem inv_query {cooldown : Int} {w : World} (h : Inv cooldown w) (hq : w.queries ≠ 0) :
    w.queries = 1 ∧ w.draws = [] ∧ w.timers = [] ∧ w.client.enabled = false := by
  obtain ⟨h1, -, -⟩ := h
  refine ⟨by omega, List.eq_nil_of_length_eq_zero (by omega), List.eq_nil_of_length_eq_zero (by omega), ?_⟩
  cases he : w.client.enabled
  · rfl
  · rw [he] at h1; simp at h1; omega

theorem setColor_of_disabled (w : World) (color : String) (playSFX : Option Bool)
    (he : w.client.enabled = false) :
    setColor w color playSFX =
      if playSFX.getD true = true then { w with audio := w.audio ++ [SFX_ERROR] } else w := by
  rcases playSFX with _ | _ | _ <;> simp [setColor, playClip, he]

theorem setColor_of_enabled (w : World) (color : String) (playSFX : Option Bool)
    (he : w.client.enabled = true) :
    setColor w color playSFX =
      if playSFX.getD true = true then
        { w with client := { w.client with color := some color },
                 hand := w.hand ++ [HandCall.updateColor color],
                 audio := w.audio ++ [SFX_SELECT] }
      else
        { w with client := { w.client with color := some color },
                 hand := w.hand ++ [HandCall.updateColor color] } := by
  rcases playSFX with _ | _ | _ <;> simp [setColor, playClip, he]

theorem inv_intent (cooldown : Int) (w : World) (i : Intent) (h : Inv cooldown w) :
    Inv cooldown (i.apply w) := by
  cases i with
  | selectColor color announce =>
    cases he : w.client.enabled
    · simp only [Intent.apply, setColor_of_disabled w color announce he]
      split_ifs
      · exact inv_of_frame h rfl rfl rfl rfl rfl rfl
      · exact h
    · obtain ⟨hd, ht, hq⟩ := inv_open h he
      obtain ⟨-, -, h3⟩ := h
      simp only [Intent.apply, setColor_of_enabled w color announce he]
      split_ifs <;> simp [Inv, hd, ht, hq, he, h3]
  | requestDraw x y =>
    by_cases hr : truthy w.client.color = false ∨ w.client.enabled = false
    · have : Intent.apply w (Intent.requestDraw x y) = playClip w SFX_ERROR := by
        rcases hr with hr | hr <;> simp [Intent.apply, drawTile, hr]
      rw [this]
      exact inv_of_frame h rfl rfl rfl rfl rfl rfl
    · have he : w.client.enabled = true := by
        cases he : w.client.enabled
        · exact absurd (Or.inr he) hr
        · rfl
      have ht : truthy w.client.color = true := by
        cases ht : truthy w.client.color
        · exact absurd (Or.inl ht) hr
        · rfl
      obtain ⟨hd, htm, hq⟩ := inv_open h he
      obtain ⟨-, -, h3⟩ := h
      simp [Inv, Intent.apply, drawTile, disable, he, ht, hd, htm, hq, h3]
  | toggleZoom =>
    obtain ⟨a, b, c, d, e, f⟩ := toggleZoom_frame w
    exact inv_of_frame h a b c d e f
  | tick =>
    obtain ⟨a, b, c, d, e, f⟩ := tick_frame w
    exact inv_of_frame h a b c d e f
  | setZoom z => exact inv_of_frame h rfl rfl rfl rfl rfl rfl
  | setOffset x y => exact inv_of_frame h rfl rfl rfl rfl rfl rfl
  | setTargetZoom z => exact inv_of_frame h rfl rfl rfl rfl rfl rfl
  | setTargetOffset x y => exact inv_of_frame h rfl rfl rfl rfl rfl rfl

theorem inv_step (cooldown : Int) (w : World) (e : Event) (h : Inv cooldown w) :
    Inv cooldown (step w e) := by
  cases e with
  | intent i => exact inv_intent cooldown w i h
  | queryOk waitTime =>
    by_cases hq : w.queries = 0
    · simpa [step, hq] using h
    · obtain ⟨hq1, hd, ht, he⟩ := inv_query h hq
      obtain ⟨-, -, h3⟩ := h
      simp [Inv, step, init.onSuccess, setCooldownTime, hq1, hd, ht, he, h3]
  | queryFailed =>
    by_cases hq : w.queries = 0
    · simpa [step, hq] using h
    · obtain ⟨hq1, hd, ht, he⟩ := inv_query h hq
      obtain ⟨-, -, h3⟩ := h
      simp [Inv, step, init.onError, setCooldownTime, hq1, hd, ht, he, h3]
  | drawOk k responseJSON =>
    cases hk : w.draws[k]? with
    | none => simpa [step, hk] using h
    | some d =>
      obtain ⟨hd, hk0, ht, hq, he, -⟩ := inv_draw h hk
      obtain ⟨-, -, h3⟩ := h
      subst hk0
      simp only [step, hk]
      simp [Inv, drawTile.onSuccess, setCooldownTime, playClip, hd, ht, hq, he, h3]
  | drawFailed k jqXHR =>
    cases hk : w.draws[k]? with
    | none => simpa [step, hk] using h
    | some d =>
      obtain ⟨hd, hk0, ht, hq, he, -⟩ := inv_draw h hk
      obtain ⟨-, -, h3⟩ := h
      subst hk0
      simp only [step, hk]
      cases hg : w.globalRes <;>
        simp [Inv, drawTile.onError, setCooldownTime, playClip, hd, ht, hq, he, h3, hg]
  | timeout k =>
    cases hk : w.timers[k]? with
    | none => simpa [step, fireTimer, hk] using h
    | some t =>
      obtain ⟨ht, hk0, hd, hq, he⟩ := inv_timer h hk
      obtain ⟨-, -, h3⟩ := h
      subst hk0
      simp only [step, fireTimer, hk]
      split_ifs
      · simp [Inv, setCooldownTime.onTimeout, enable, hd, ht, hq, h3]
      · exact ⟨by simp [hd, ht, hq, he], by simp [hd], h3⟩
  | elapse ms => exact inv_of_frame h rfl rfl rfl rfl rfl rfl

theorem inv_run (cooldown : Int) (es : List Event) (w : World) (h : Inv cooldown w) :
    Inv cooldown (run w es) := by
  induction es generalizing w with
  | nil => exact h
  | cons e es ih => exact ih (step w e) (inv_step cooldown w e h)

/-- A locked controller stays locked, with the color it has, whatever happens. -/
theorem locked_step (w : World) (e : Event) (h : Locked w) :
    Locked (step w e) ∧ (step w e).client.color = w.client.color := by
  obtain ⟨he, hd, ht, hq⟩ := h
  cases e with
  | intent i =>
    cases i with
    | selectColor color announce =>
      simp only [step, Intent.apply, setColor_of_disabled w color announce he]
      split_ifs <;> exact ⟨⟨he, hd, ht, hq⟩, rfl⟩
    | requestDraw x y =>
      have : drawTile w x y = playClip w SFX_ERROR := by simp [drawTile, he]
      simp only [step, Intent.apply, this]
      exact ⟨⟨he, hd, ht, hq⟩, rfl⟩
    | toggleZoom =>
      obtain ⟨a, b, c, d, e, -⟩ := toggleZoom_frame w
      simp only [step, Intent.apply, Locked, a, b, c, d, e]
      exact ⟨⟨he, hd, ht, hq⟩, trivial⟩
    | tick =>
      obtain ⟨a, b, c, d, e, -⟩ := tick_frame w
      simp only [step, Intent.apply, Locked, a, b, c, d, e]
      exact ⟨⟨he, hd, ht, hq⟩, trivial⟩
    | setZoom z => exact ⟨⟨he, hd, ht, hq⟩, rfl⟩
    | setOffset x y => exact ⟨⟨he, hd, ht, hq⟩, rfl⟩
    | setTargetZoom z => exact ⟨⟨he, hd, ht, hq⟩, rfl⟩
    | setTargetOffset x y => exact ⟨⟨he, hd, ht, hq⟩, rfl⟩
  | queryOk waitTime =>
    have : step w (Event.queryOk waitTime) = w := by simp [step, hq]
    rw [this]; exact ⟨⟨he, hd, ht, hq⟩, rfl⟩
  | queryFailed =>
    have : step w Event.queryFailed = w := by simp [step, hq]
    rw [this]; exact ⟨⟨he, hd, ht, hq⟩, rfl⟩
  | drawOk k responseJSON =>
    have : step w (Event.drawOk k responseJSON) = w := by simp [step, hd]
    rw [this]; exact ⟨⟨he, hd, ht, hq⟩, rfl⟩
  | drawFailed k jqXHR =>
    have : step w (Event.drawFailed k jqXHR) = w := by simp [step, hd]
    rw [this]; exact ⟨⟨he, hd, ht, hq⟩, rfl⟩
  | timeout k =>
    have : step w (Event.timeout k) = w := by simp [step, fireTimer, ht]
    rw [this]; exact ⟨⟨he, hd, ht, hq⟩, rfl⟩
  | elapse ms => exact ⟨⟨he, hd, ht, hq⟩, rfl⟩

theorem locked_run (es : List Event) (w : World) (h : Locked w) :
    Locked (run w es) ∧ (run w es).client.color = w.client.color := by
  induction es generalizing w with
  | nil => exact ⟨h, rfl⟩
  | cons e es ih =>
    obtain ⟨h1, h2⟩ := locked_step w e h
    obtain ⟨h3, h4⟩ := ih (step w e) h1
    exact ⟨h3, h4.trans h2⟩

/-! ## Draw orchestration -/

/-- C1: when no color is selected (the field is `null` or otherwise falsy) or the
client is disabled, `drawTile` sends no draw request and changes nothing: its only
effect is one more `SFX_ERROR` clip handed to the audio manager. -/
theorem drawTile_rejected (w : World) (x y : Int)
    (h : truthy w.client.color = false ∨ w.client.enabled = false) :
    drawTile w x y = { w with audio := w.audio ++ [SFX_ERROR] } ∧
    (drawTile w x y).draws = w.draws ∧
    (drawTile w x y).client = w.client := by
  rcases h with h | h <;> simp [drawTile, playClip, h]

theorem drawTile_rejected_witness :
    (truthy (World.fresh 0 none).client.color = false ∨ (World.fresh 0 none).client.enabled = false) ∧
    (drawTile (World.fresh 0 none) 3 4 =
        { World.fresh 0 none with audio := (World.fresh 0 none).audio ++ [SFX_ERROR] } ∧
      (drawTile (World.fresh 0 none) 3 4).draws = (World.fresh 0 none).draws ∧
      (drawTile (World.fresh 0 none) 3 4).client = (World.fresh 0 none).client) :=
  ⟨Or.inl rfl, drawTile_rejected (World.fresh 0 none) 3 4 (Or.inl rfl)⟩

/-- C2: with a color `c` selected (a non-empty string) and the client enabled,
`drawTile` returns with `enabled = false` and with exactly one more request in
flight, the request `(x, y, c)`; nothing else changes, so the color is still `c`
and no answer has been processed. -/
theorem drawTile_accepted (w : World) (x y : Int) (c : String)
    (hc : w.client.color = some c) (hne : c ≠ "") (he : w.client.enabled = true) :
    drawTile w x y =
      { w with client := { w.client with enabled := false }, draws := w.draws ++ [(x, y, some c)] } ∧
    (drawTile w x y).client.enabled = false ∧
    (drawTile w x y).draws = w.draws ++ [(x, y, some c)] ∧
    (drawTile w x y).client.color = some c ∧
    (drawTile w x y).canvas = w.canvas ∧ (drawTile w x y).timers = w.timers := by
  simp [drawTile, disable, truthy, hc, hne, he]

theorem drawTile_accepted_witness :
    sampleSelected.client.color = some "#ff0000" ∧ "#ff0000" ≠ "" ∧
    sampleSelected.client.enabled = true ∧
    (drawTile sampleSelected 3 4).client.enabled = false ∧
    (drawTile sampleSelected 3 4).draws = sampleSelected.draws ++ [(3, 4, some "#ff0000")] :=
  ⟨rfl, by decide, rfl,
    (drawTile_accepted sampleSelected 3 4 "#ff0000" rfl (by decide) rfl).2.1,
    (drawTile_accepted sampleSelected 3 4 "#ff0000" rfl (by decide) rfl).2.2.1⟩

/-- C3: in every run from `init`, when the draw request `(x, y, c)` in flight
succeeds, then whatever the response payload, the tile `(x, y, c)` is written to
the canvas, `SFX_PLACE` is played, the hand is cleared, `color` becomes `null`,
and a cooldown of the configured `cooldown` starts: `cooldownEndTime` is the
current time plus `cooldown` and the one new timeout has that delay. -/
theorem drawTile_onSuccess_spec (now : Int) (globalRes : Option Int) (isEnabled : Bool)
    (cooldown : Int) (color : Option String) (isZoomedIn : Option Bool) (panX panY : Option ℚ)
    (es : List Event) (k : Nat) (x y : Int) (c : Option String) (responseJSON : String)
    (hk : (run (init (World.fresh now globalRes) isEnabled cooldown color isZoomedIn panX panY)
      es).draws[k]? = some (x, y, c)) :
    (step (run (init (World.fresh now globalRes) isEnabled cooldown color isZoomedIn panX panY) es)
        (Event.drawOk k responseJSON)) =
      { run (init (World.fresh now globalRes) isEnabled cooldown color isZoomedIn panX panY) es with
        client :=
          { (run (init (World.fresh now globalRes) isEnabled cooldown color isZoomedIn panX panY)
              es).client with
            color := none
            cooldownEndTime :=
              (run (init (World.fresh now globalRes) isEnabled cooldown color isZoomedIn panX panY)
                es).now + cooldown
            cooldownPromise :=
              some (run (init (World.fresh now globalRes) isEnabled cooldown color isZoomedIn panX
                panY) es).deferreds }
        canvas :=
          (run (init (World.fresh now globalRes) isEnabled cooldown color isZoomedIn panX panY)
            es).canvas ++ [(x, y, c)]
        audio :=
          (run (init (World.fresh now globalRes) isEnabled cooldown color isZoomedIn panX panY)
            es).audio ++ [SFX_PLACE]
        hand :=
          (run (init (World.fresh now globalRes) isEnabled cooldown color isZoomedIn panX panY)
            es).hand ++ [HandCall.clearColor]
        draws := []
        timers :=
          [Timer.mk
            (run (init (World.fresh now globalRes) isEnabled cooldown color isZoomedIn panX panY)
              es).deferreds
            cooldown
            (run (init (World.fresh now globalRes) isEnabled cooldown color isZoomedIn panX panY)
              es).now]
        deferreds :=
          (run (init (World.fresh now globalRes) isEnabled cooldown color isZoomedIn panX panY)
            es).deferreds + 1 } := by
  have hinv := inv_run cooldown es _
    (inv_init now globalRes isEnabled cooldown color isZoomedIn panX panY)
  generalize run (init (World.fresh now globalRes) isEnabled cooldown color isZoomedIn panX panY)
    es = w at hk hinv ⊢
  obtain ⟨hd, hk0, ht, -, -, hc⟩ := inv_draw hinv hk
  obtain ⟨-, -, h3⟩ := hinv
  subst hk0
  simp only [step, hk]
  simp at hc
  simp [drawTile.onSuccess, setCooldownTime, playClip, hd, ht, h3, hc]

theorem drawTile_onSuccess_spec_witness :
    sampleDrawing.draws[0]? = some (3, 4, some "#ff0000") ∧
    (step sampleDrawing (Event.drawOk 0 "ok")).canvas = [(3, 4, some "#ff0000")] ∧
    (step sampleDrawing (Event.drawOk 0 "ok")).client.color = none ∧
    (step sampleDrawing (Event.drawOk 0 "ok")).client.cooldownEndTime = 301000 ∧
    (step sampleDrawing (Event.drawOk 0 "ok")).timers = [Timer.mk 1 300000 1000] := by
  have h := drawTile_onSuccess_spec 1000 none true 300000 none none none none sampleEvents 0 3 4
    (some "#ff0000") "ok" rfl
  refine ⟨rfl, ?_, ?_, ?_, ?_⟩
  · exact congrArg World.canvas h
  · exact congrArg (fun w => w.client.color) h
  · exact congrArg (fun w => w.client.cooldownEndTime) h
  · exact congrArg World.timers h

/-- C4: the failure handler of `drawTile` reads the wait time from the free
identifier `res`, not from the failed response. In the sample session (no global
`res`), a failure carrying `waitSeconds = 5` plays `SFX_ERROR` and then throws:
no timeout is scheduled, `cooldownEndTime` stays 1000 instead of becoming 6000, and
the controller is disabled in every continuation. Whatever `res` is, the handler
does the same for every response. -/
theorem drawTile_onError_throws :
    (step sampleDrawing (Event.drawFailed 0 (Failure.mk 5))).uncaught =
      ["ReferenceError: res is not defined"] ∧
    (step sampleDrawing (Event.drawFailed 0 (Failure.mk 5))).audio =
      sampleDrawing.audio ++ [SFX_ERROR] ∧
    (step sampleDrawing (Event.drawFailed 0 (Failure.mk 5))).timers = [] ∧
    (step sampleDrawing (Event.drawFailed 0 (Failure.mk 5))).client.cooldownEndTime = 1000 ∧
    (∀ es : List Event,
      (run (step sampleDrawing (Event.drawFailed 0 (Failure.mk 5))) es).client.enabled = false ∧
      (run (step sampleDrawing (Event.drawFailed 0 (Failure.mk 5))) es).timers = []) ∧
    (∀ (w : World) (x y : Int) (r1 r2 : Failure),
      drawTile.onError w x y r1 = drawTile.onError w x y r2) := by
  refine ⟨rfl, rfl, rfl, rfl, ?_, fun _ _ _ _ _ => rfl⟩
  intro es
  have h := (locked_run es (step sampleDrawing (Event.drawFailed 0 (Failure.mk 5)))
    ⟨rfl, rfl, rfl, rfl⟩).1
  exact ⟨h.1, h.2.2.1⟩

/-! ## Cooldown -/

/-- C5, as stated, fails: on the fresh controller (`enabled = true`)
`setCooldownTime 1000` returns with `enabled` still `true`. -/
theorem setCooldownTime_enabled_counterexample :
    (0 : Int) ≤ 1000 ∧ (World.fresh 0 none).client.enabled = true ∧
    ¬ ((setCooldownTime (World.fresh 0 none) 1000).2.client.enabled = false) :=
  ⟨by decide, rfl, by decide⟩

/-- C5, amended: `setCooldownTime` leaves `enabled` as it was, so it is `false`
right after the call exactly when it was `false` before. Every call the controller
makes itself finds the gate shut: in every run from `init`, `enabled` is `false`
whenever a timeout is pending. -/
theorem setCooldownTime_keeps_enabled :
    (∀ (w : World) (durationMs : Int),
      (setCooldownTime w durationMs).2.client.enabled = w.client.enabled) ∧
    (∀ (now : Int) (globalRes : Option Int) (isEnabled : Bool) (cooldown : Int)
      (color : Option String) (isZoomedIn : Option Bool) (panX panY : Option ℚ) (es : List Event),
      (run (init (World.fresh now globalRes) isEnabled cooldown color isZoomedIn panX panY)
        es).timers = [] ∨
      (run (init (World.fresh now globalRes) isEnabled cooldown color isZoomedIn panX panY)
        es).client.enabled = false) := by
  refine ⟨fun _ _ => rfl, ?_⟩
  intro now globalRes isEnabled cooldown color isZoomedIn panX panY es
  have hinv := inv_run cooldown es _
    (inv_init now globalRes isEnabled cooldown color isZoomedIn panX panY)
  generalize run (init (World.fresh now globalRes) isEnabled cooldown color isZoomedIn panX panY)
    es = w at hinv ⊢
  cases he : w.client.enabled
  · exact Or.inr rfl
  · exact Or.inl (inv_open hinv he).2.1

/-- C6: `setCooldownTime w durationMs` records `cooldownEndTime = now + durationMs`
and schedules exactly one timeout, with delay `durationMs`, whose deferred is the
returned promise. When that timeout fires in a world `w'` whose clock has reached
`now + durationMs` and whose `cooldownEndTime` is still the recorded one, then
`enabled` is `true`, the promise is resolved with `enabled` already `true`,
`cooldownPromise` is `null` and `getCooldownTimeRemaining` is 0. -/
theorem setCooldownTime_completes (w : World) (durationMs : Int) (hd : 0 ≤ durationMs)
    (w' : World) (k : Nat)
    (hk : w'.timers[k]? = some (Timer.mk (setCooldownTime w durationMs).1 durationMs w.now))
    (hnow : w.now + durationMs ≤ w'.now)
    (hend : w'.client.cooldownEndTime = w.now + durationMs) :
    (setCooldownTime w durationMs).2.client.cooldownEndTime = w.now + durationMs ∧
    (setCooldownTime w durationMs).2.timers =
      w.timers ++ [Timer.mk (setCooldownTime w durationMs).1 durationMs w.now] ∧
    (setCooldownTime w durationMs).2.client.cooldownPromise =
      some (setCooldownTime w durationMs).1 ∧
    (fireTimer w' k).client.enabled = true ∧
    (fireTimer w' k).resolved =
      w'.resolved ++ [((setCooldownTime w durationMs).1, { w'.client with enabled := true })] ∧
    (fireTimer w' k).client.cooldownPromise = none ∧
    (fireTimer w' k).timers = w'.timers.eraseIdx k ∧
    getCooldownTimeRemaining (fireTimer w' k) = 0 := by
  have hdue : w.now + max 0 durationMs ≤ w'.now := by
    rw [max_eq_right hd]; exact hnow
  have hf : fireTimer w' k =
      setCooldownTime.onTimeout { w' with timers := w'.timers.eraseIdx k }
        (setCooldownTime w durationMs).1 := by
    simp only [fireTimer, hk]
    rw [if_pos hdue]
  refine ⟨rfl, rfl, rfl, ?_, ?_, ?_, ?_, ?_⟩
  · rw [hf]; rfl
  · rw [hf]; rfl
  · rw [hf]; rfl
  · rw [hf]; rfl
  · rw [hf]
    have : (setCooldownTime.onTimeout { w' with timers := w'.timers.eraseIdx k }
        (setCooldownTime w durationMs).1).client.cooldownEndTime - w'.now ≤ 0 := by
      show w'.client.cooldownEndTime - w'.now ≤ 0
      omega
    exact max_eq_left this

theorem setCooldownTime_completes_witness :
    (step (setCooldownTime (World.fresh 1000 none) 5000).2 (Event.elapse 5000)).timers[0]? =
      some (Timer.mk 0 5000 1000) ∧
    (fireTimer (step (setCooldownTime (World.fresh 1000 none) 5000).2 (Event.elapse 5000))
      0).client.enabled = true ∧
    getCooldownTimeRemaining
      (fireTimer (step (setCooldownTime (World.fresh 1000 none) 5000).2 (Event.elapse 5000)) 0)
      = 0 :=
  ⟨rfl,
    (setCooldownTime_completes (World.fresh 1000 none) 5000 (by decide)
      (step (setCooldownTime (World.fresh 1000 none) 5000).2 (Event.elapse 5000)) 0 rfl
      (by decide) rfl).2.2.2.1,
    (setCooldownTime_completes (World.fresh 1000 none) 5000 (by decide)
      (step (setCooldownTime (World.fresh 1000 none) 5000).2 (Event.elapse 5000)) 0 rfl
      (by decide) rfl).2.2.2.2.2.2.2⟩

/-! ## Runs from `init` -/

/-- C7: after `init`, whatever the user does and whenever the query answer, the
draw answers and the timeouts arrive, at most one draw request is in flight; the
sample session shows one in flight. -/
theorem at_most_one_draw_in_flight (now : Int) (globalRes : Option Int) (isEnabled : Bool)
    (cooldown : Int) (color : Option String) (isZoomedIn : Option Bool) (panX panY : Option ℚ)
    (es : List Event) :
    (run (init (World.fresh now globalRes) isEnabled cooldown color isZoomedIn panX panY)
      es).draws.length ≤ 1 ∧
    (run (init (World.fresh 1000 none) true 300000 none none none none)
      sampleEvents).draws.length = 1 := by
  have hinv := inv_run cooldown es _
    (inv_init now globalRes isEnabled cooldown color isZoomedIn panX panY)
  refine ⟨?_, rfl⟩
  have h1 := hinv.1
  omega

/-- C8: `init` with `isEnabled = false` on the fresh controller sends no cooldown
query and sets no timeout, and after any sequence of user intents `enabled` is
still `false`, `color` is still `null` and no draw request has been sent. -/
theorem init_disabled_stays_disabled (now : Int) (globalRes : Option Int) (cooldown : Int)
    (color : Option String) (isZoomedIn : Option Bool) (panX panY : Option ℚ)
    (intents : List Intent) :
    (init (World.fresh now globalRes) false cooldown color isZoomedIn panX panY).queries = 0 ∧
    (init (World.fresh now globalRes) false cooldown color isZoomedIn panX panY).timers = [] ∧
    (run (init (World.fresh now globalRes) false cooldown color isZoomedIn panX panY)
      (intents.map Event.intent)).client.enabled = false ∧
    (run (init (World.fresh now globalRes) false cooldown color isZoomedIn panX panY)
      (intents.map Event.intent)).client.color = none ∧
    (run (init (World.fresh now globalRes) false cooldown color isZoomedIn panX panY)
      (intents.map Event.intent)).draws = [] ∧
    (run (init (World.fresh now globalRes) false cooldown color isZoomedIn panX panY)
      (intents.map Event.intent)).timers = [] ∧
    (run (init (World.fresh now globalRes) false cooldown color isZoomedIn panX panY)
      (intents.map Event.intent)).queries = 0 := by
  have h0 : Locked (init (World.fresh now globalRes) false cooldown color isZoomedIn panX panY) ∧
      (init (World.fresh now globalRes) false cooldown color isZoomedIn panX panY).client.color
        = none := by
    cases color <;>
      simp [Locked, init, setColor, setZoom, setOffset, World.fresh, Client.fresh]
  obtain ⟨⟨he, hd, ht, hq⟩, hc⟩ :=
    locked_run (intents.map Event.intent) _ h0.1
  exact ⟨h0.1.2.2.2, h0.1.2.2.1, he, hc.trans h0.2, hd, ht, hq⟩

/-- C9: after `init` with `isEnabled = true` a failed cooldown query does what a
successful one answering 0 does: it starts a cooldown of 0 ms. Its timeout can
fire at once and at any later time, and when it has fired `enabled` is `true` and
`getCooldownTimeRemaining` is 0. -/
theorem init_query_failure_enables (now : Int) (globalRes : Option Int) (cooldown : Int)
    (color : Option String) (isZoomedIn : Option Bool) (panX panY : Option ℚ) (ms : Nat) :
    (init (World.fresh now globalRes) true cooldown color isZoomedIn panX panY).queries = 1 ∧
    step (init (World.fresh now globalRes) true cooldown color isZoomedIn panX panY)
        Event.queryFailed =
      step (init (World.fresh now globalRes) true cooldown color isZoomedIn panX panY)
        (Event.queryOk 0) ∧
    (step (init (World.fresh now globalRes) true cooldown color isZoomedIn panX panY)
      Event.queryFailed).timers = [Timer.mk 0 0 now] ∧
    (step (init (World.fresh now globalRes) true cooldown color isZoomedIn panX panY)
      Event.queryFailed).client.cooldownEndTime = now ∧
    (step (init (World.fresh now globalRes) true cooldown color isZoomedIn panX panY)
      Event.queryFailed).client.enabled = false ∧
    (run (init (World.fresh now globalRes) true cooldown color isZoomedIn panX panY)
      [Event.queryFailed, Event.elapse ms, Event.timeout 0]).client.enabled = true ∧
    (run (init (World.fresh now globalRes) true cooldown color isZoomedIn panX panY)
      [Event.queryFailed, Event.elapse ms, Event.timeout 0]).timers = [] ∧
    getCooldownTimeRemaining
      (run (init (World.fresh now globalRes) true cooldown color isZoomedIn panX panY)
        [Event.queryFailed, Event.elapse ms, Event.timeout 0]) = 0 := by
  have hms : (0 : Int) ≤ (ms : Int) := Int.ofNat_nonneg ms
  cases color <;>
    simp [run, step, fireTimer, init, init.onError, init.onSuccess, setCooldownTime,
      setCooldownTime.onTimeout, enable, getCooldownTimeRemaining, setColor, setZoom, setOffset,
      World.fresh, Client.fresh, hms]

/-! ## Color selection -/

/-- C10: `setColor` with the client disabled changes nothing and does not call the
hand; it plays `SFX_ERROR` exactly when `playSFX` is true (an omitted `playSFX`
counts as true). With the client enabled it sets `color`, calls
`Hand.updateColor` with it, changes nothing else, and plays `SFX_SELECT` exactly
when `playSFX` is true. -/
theorem setColor_spec (w : World) (color : String) (playSFX : Option Bool) :
    (w.client.enabled = false →
      setColor w color playSFX =
        if playSFX.getD true = true then { w with audio := w.audio ++ [SFX_ERROR] } else w) ∧
    (w.client.enabled = true →
      setColor w color playSFX =
        if playSFX.getD true = true then
          { w with client := { w.client with color := some color },
                   hand := w.hand ++ [HandCall.updateColor color],
                   audio := w.audio ++ [SFX_SELECT] }
        else
          { w with client := { w.client with color := some color },
                   hand := w.hand ++ [HandCall.updateColor color] }) :=
  ⟨setColor_of_disabled w color playSFX, setColor_of_enabled w color playSFX⟩

theorem setColor_spec_witness :
    (sampleInit.client.enabled = false ∧
      setColor sampleInit "#ff0000" none =
        { sampleInit with audio := sampleInit.audio ++ [SFX_ERROR] }) ∧
    ((World.fresh 0 none).client.enabled = true ∧
      setColor (World.fresh 0 none) "#ff0000" (some false) =
        { World.fresh 0 none with
          client := { (World.fresh 0 none).client with color := some "#ff0000" },
          hand := (World.fresh 0 none).hand ++ [HandCall.updateColor "#ff0000"] }) :=
  ⟨⟨rfl, (setColor_spec sampleInit "#ff0000" none).1 rfl⟩,
    ⟨rfl, (setColor_spec (World.fresh 0 none) "#ff0000" (some false)).2 rfl⟩⟩

/-- C11: `init` shuts the gate before it calls `setColor(color, false)`, and
`setColor` returns at once when the gate is shut: for every saved color, after
`init` on the fresh page `color` is still `null` and the hand has received no
call (and no clip was played). For the saved color `#ff0000` the color is not
the saved one. -/
theorem init_drops_saved_color (now : Int) (globalRes : Option Int) (isEnabled : Bool)
    (cooldown : Int) (color : Option String) (isZoomedIn : Option Bool)
    (panX panY : Option ℚ) :
    (init (World.fresh now globalRes) isEnabled cooldown color isZoomedIn panX panY).client.color
      = none ∧
    (init (World.fresh now globalRes) isEnabled cooldown color isZoomedIn panX panY).hand = [] ∧
    (init (World.fresh now globalRes) isEnabled cooldown color isZoomedIn panX panY).audio = [] ∧
    (init (World.fresh 1000 none) true 300000 (some "#ff0000") none none none).client.color
      ≠ some "#ff0000" := by
  refine ⟨?_, ?_, ?_, by decide⟩ <;>
    cases isEnabled <;> cases color <;>
      simp [init, setColor, setZoom, setOffset, World.fresh, Client.fresh]

/-! ## The color and the gate -/

/-- Every draw request is sent with a truthy color, so the requests in flight
all carry one. -/
theorem draws_truthy_step (w : World) (e : Event)
    (h : ∀ d ∈ w.draws, truthy d.2.2 = true) : ∀ d ∈ (step w e).draws, truthy d.2.2 = true := by
  cases e with
  | intent i =>
    cases i with
    | selectColor color announce =>
      have : (setColor w color announce).draws = w.draws := by
        simp only [setColor, playClip]; split_ifs <;> rfl
      simpa [step, Intent.apply, this] using h
    | requestDraw x y =>
      by_cases hr : (!truthy w.client.color || !w.client.enabled) = true
      · have : drawTile w x y = playClip w SFX_ERROR := by simp only [drawTile, hr, if_true]
        simpa [step, Intent.apply, this, playClip] using h
      · have hd : (drawTile w x y).draws = w.draws ++ [(x, y, w.client.color)] := by
          simp only [drawTile, hr]; rfl
        have ht : truthy w.client.color = true := by
          cases ht : truthy w.client.color
          · simp [ht] at hr
          · rfl
        intro d hmem
        simp only [step, Intent.apply, hd, List.mem_append, List.mem_singleton] at hmem
        rcases hmem with hmem | hmem
        · exact h d hmem
        · rw [hmem]; exact ht
    | toggleZoom => simpa [step, Intent.apply, (toggleZoom_frame w).1] using h
    | tick => simpa [step, Intent.apply, (tick_frame w).1] using h
    | setZoom z => exact h
    | setOffset x y => exact h
    | setTargetZoom z => exact h
    | setTargetOffset x y => exact h
  | queryOk waitTime =>
    simp only [step]; split_ifs
    · exact h
    · exact h
  | queryFailed =>
    simp only [step]; split_ifs
    · exact h
    · exact h
  | drawOk k responseJSON =>
    simp only [step]
    cases hk : w.draws[k]? with
    | none => exact h
    | some d0 => exact fun d hmem => h d (List.mem_of_mem_eraseIdx hmem)
  | drawFailed k jqXHR =>
    simp only [step]
    cases hk : w.draws[k]? with
    | none => exact h
    | some d0 =>
      intro d hmem
      have : (drawTile.onError { w with draws := w.draws.eraseIdx k } d0.1 d0.2.1 jqXHR).draws =
          w.draws.eraseIdx k := by
        simp only [drawTile.onError, playClip]
        cases w.globalRes <;> rfl
      rw [this] at hmem
      exact h d (List.mem_of_mem_eraseIdx hmem)
  | timeout k =>
    simp only [step, fireTimer]
    cases hk : w.timers[k]? with
    | none => exact h
    | some t =>
      simp only []
      split_ifs
      · exact h
      · exact h
  | elapse ms => exact h

theorem draws_truthy_run (es : List Event) (w : World)
    (h : ∀ d ∈ w.draws, truthy d.2.2 = true) : ∀ d ∈ (run w es).draws, truthy d.2.2 = true := by
  induction es generalizing w with
  | nil => exact h
  | cons e es ih => exact ih (step w e) (draws_truthy_step w e h)

/-- The color changes in two ways only: the answer to a successful draw makes it
`null`, and the intent `setColor c` made with the gate open sets it to `c` (and
leaves the gate open). Every other event leaves it as it is. -/
theorem color_step (w : World) (e : Event) :
    (step w e).client.color = w.client.color ∨
      ((∃ k responseJSON, e = Event.drawOk k responseJSON) ∧ (step w e).client.color = none) ∨
      (∃ c announce, e = Event.intent (Intent.selectColor c announce) ∧
        w.client.enabled = true ∧ (step w e).client.enabled = true ∧
        (step w e).client.color = some c) := by
  cases e with
  | intent i =>
    cases i with
    | selectColor color announce =>
      cases he : w.client.enabled
      · left
        simp only [step, Intent.apply, setColor_of_disabled w color announce he]
        split_ifs <;> rfl
      · right; right
        refine ⟨color, announce, rfl, rfl, ?_, ?_⟩
        · simp only [step, Intent.apply, setColor_of_enabled w color announce he]
          split_ifs <;> exact he
        · simp only [step, Intent.apply, setColor_of_enabled w color announce he]
          split_ifs <;> rfl
    | requestDraw x y =>
      left
      simp only [step, Intent.apply, drawTile, playClip, disable]
      split_ifs <;> rfl
    | toggleZoom => exact Or.inl (toggleZoom_frame w).2.2.2.2.1
    | tick => exact Or.inl (tick_frame w).2.2.2.2.1
    | setZoom z => exact Or.inl rfl
    | setOffset x y => exact Or.inl rfl
    | setTargetZoom z => exact Or.inl rfl
    | setTargetOffset x y => exact Or.inl rfl
  | queryOk waitTime => left; simp only [step]; split_ifs <;> rfl
  | queryFailed => left; simp only [step]; split_ifs <;> rfl
  | drawOk k responseJSON =>
    simp only [step]
    cases hk : w.draws[k]? with
    | none => exact Or.inl rfl
    | some d0 => exact Or.inr (Or.inl ⟨⟨k, responseJSON, rfl⟩, rfl⟩)
  | drawFailed k jqXHR =>
    left
    simp only [step]
    cases hk : w.draws[k]? with
    | none => rfl
    | some d0 =>
      simp only [drawTile.onError, playClip]
      cases w.globalRes <;> rfl
  | timeout k =>
    left
    simp only [step, fireTimer]
    cases hk : w.timers[k]? with
    | none => rfl
    | some t =>
      simp only []
      split_ifs <;> rfl
  | elapse ms => exact Or.inl rfl

/-- C12, as stated, fails: in the sample session, with the draw request in
flight, `color` is `#ff0000` while `enabled` is `false`. -/
theorem color_without_gate_counterexample :
    ¬ ((session 1000 none true 300000 none none none none sampleEvents).client.color ≠ none →
      (session 1000 none true 300000 none none none none sampleEvents).client.enabled = true) := by
  decide

/-- C12, amended: in every session, while a draw request is in flight the gate is
shut and `color` is still the (truthy) color the request carries. An event either
leaves `color` as it is, or is the answer to a successful draw and makes it
`null`, or is the intent `setColor c` made with the gate open, which stays open,
and makes it `c`. A successful draw makes `color` `null`; a failed draw leaves it
as it is. -/
theorem color_follows_gate (now : Int) (globalRes : Option Int) (isEnabled : Bool)
    (cooldown : Int) (color : Option String) (isZoomedIn : Option Bool) (panX panY : Option ℚ)
    (es : List Event) (e : Event) (k : Nat) (responseJSON : String) (jqXHR : Failure) :
    ((session now globalRes isEnabled cooldown color isZoomedIn panX panY es).draws = [] ∨
      ((session now globalRes isEnabled cooldown color isZoomedIn panX panY es).client.enabled
          = false ∧
        truthy (session now globalRes isEnabled cooldown color isZoomedIn panX panY es).client.color
          = true ∧
        ∃ x y, (session now globalRes isEnabled cooldown color isZoomedIn panX panY es).draws =
          [(x, y,
            (session now globalRes isEnabled cooldown color isZoomedIn panX panY es).client.color)])) ∧
    ((step (session now globalRes isEnabled cooldown color isZoomedIn panX panY es) e).client.color
        = (session now globalRes isEnabled cooldown color isZoomedIn panX panY es).client.color ∨
      ((∃ k' payload, e = Event.drawOk k' payload) ∧
        (step (session now globalRes isEnabled cooldown color isZoomedIn panX panY es)
          e).client.color = none) ∨
      (∃ c announce, e = Event.intent (Intent.selectColor c announce) ∧
        (session now globalRes isEnabled cooldown color isZoomedIn panX panY es).client.enabled
          = true ∧
        (step (session now globalRes isEnabled cooldown color isZoomedIn panX panY es)
          e).client.enabled = true ∧
        (step (session now globalRes isEnabled cooldown color isZoomedIn panX panY es)
          e).client.color = some c)) ∧
    ((session now globalRes isEnabled cooldown color isZoomedIn panX panY es).draws[k]? = none ∨
      (step (session now globalRes isEnabled cooldown color isZoomedIn panX panY es)
        (Event.drawOk k responseJSON)).client.color = none) ∧
    (step (session now globalRes isEnabled cooldown color isZoomedIn panX panY es)
        (Event.drawFailed k jqXHR)).client.color =
      (session now globalRes isEnabled cooldown color isZoomedIn panX panY es).client.color := by
  have hinv : Inv cooldown (session now globalRes isEnabled cooldown color isZoomedIn panX panY es) :=
    inv_run cooldown es _ (inv_init now globalRes isEnabled cooldown color isZoomedIn panX panY)
  have htr : ∀ d ∈ (session now globalRes isEnabled cooldown color isZoomedIn panX panY es).draws,
      truthy d.2.2 = true := by
    apply draws_truthy_run
    intro d hd
    have hnil : (init (World.fresh now globalRes) isEnabled cooldown color isZoomedIn panX
        panY).draws = [] := by
      cases isEnabled <;> cases color <;>
        simp [init, setColor, setZoom, setOffset, World.fresh, Client.fresh]
    rw [hnil] at hd
    simp at hd
  generalize session now globalRes isEnabled cooldown color isZoomedIn panX panY es = w
    at hinv htr ⊢
  refine ⟨?_, color_step w e, ?_, ?_⟩
  · cases hw : w.draws with
    | nil => exact Or.inl rfl
    | cons d l =>
      right
      have hk0 : w.draws[0]? = some d := by rw [hw]; simp
      obtain ⟨hd, -, -, -, he, hc⟩ := inv_draw hinv hk0
      rw [hw] at hd
      have ht := htr d (by rw [hw]; exact List.mem_cons_self d l)
      rw [hc] at ht
      refine ⟨he, ht, d.1, d.2.1, ?_⟩
      rw [hd, ← hc]
  · cases hk : w.draws[k]? with
    | none => exact Or.inl rfl
    | some d0 =>
      right
      simp only [step, hk]
      rfl
  · simp only [step]
    cases hk : w.draws[k]? with
    | none => rfl
    | some d0 =>
      simp only [drawTile.onError, playClip]
      cases w.globalRes <;> rfl

/-! ## Remaining cooldown -/

/-- User intents touch neither the clock nor anything of the cooldown. -/
theorem intent_cooldown_frame (w : World) (i : Intent) :
    (i.apply w).client.cooldownEndTime = w.client.cooldownEndTime ∧ (i.apply w).now = w.now ∧
    (i.apply w).client.cooldownPromise = w.client.cooldownPromise ∧
    (i.apply w).timers = w.timers ∧ (i.apply w).deferreds = w.deferreds ∧
    (i.apply w).resolved = w.resolved := by
  cases i with
  | selectColor color announce =>
    simp only [Intent.apply, setColor, playClip]
    split_ifs <;> simp
  | requestDraw x y =>
    simp only [Intent.apply, drawTile, playClip, disable]
    split_ifs <;> simp
  | toggleZoom =>
    simp only [Intent.apply, toggleZoom, setTargetZoom, playClip]
    split_ifs <;> simp
  | tick =>
    simp only [Intent.apply, tick]
    split_ifs <;> simp
  | setZoom z => simp [Intent.apply, setZoom]
  | setOffset x y => simp [Intent.apply, setOffset]
  | setTargetZoom z => simp [Intent.apply, setTargetZoom]
  | setTargetOffset x y => simp [Intent.apply, setTargetOffset]

theorem intents_cooldown_frame (intents : List Intent) (w : World) :
    (run w (intents.map Event.intent)).client.cooldownEndTime = w.client.cooldownEndTime ∧
    (run w (intents.map Event.intent)).now = w.now := by
  induction intents generalizing w with
  | nil => exact ⟨rfl, rfl⟩
  | cons i is ih =>
    obtain ⟨h1, h2⟩ := ih (i.apply w)
    obtain ⟨h3, h4, -⟩ := intent_cooldown_frame w i
    exact ⟨h1.trans h3, h2.trans h4⟩

/-- C13: `getCooldownTimeRemaining` is `max(0, cooldownEndTime - now)`; being a
function of the world it changes nothing. It is never negative; it is 0 on the
fresh page and after `init` and any user intents, where no cooldown was started
(`cooldownEndTime` is 0 and the clock is not negative); and with
`cooldownEndTime` fixed it does not increase when the clock moves from `now1`
to a later `now2`. -/
theorem getCooldownTimeRemaining_spec (w : World) (now1 now2 : Int) (globalRes : Option Int)
    (isEnabled : Bool) (cooldown : Int) (color : Option String) (isZoomedIn : Option Bool)
    (panX panY : Option ℚ) (intents : List Intent)
    (h0 : 0 ≤ now1) (h12 : now1 ≤ now2) :
    getCooldownTimeRemaining w = max 0 (w.client.cooldownEndTime - w.now) ∧
    0 ≤ getCooldownTimeRemaining w ∧
    getCooldownTimeRemaining (World.fresh now1 globalRes) = 0 ∧
    getCooldownTimeRemaining
      (run (init (World.fresh now1 globalRes) isEnabled cooldown color isZoomedIn panX panY)
        (intents.map Event.intent)) = 0 ∧
    getCooldownTimeRemaining { w with now := now2 } ≤
      getCooldownTimeRemaining { w with now := now1 } := by
  refine ⟨rfl, le_max_left _ _, ?_, ?_, ?_⟩
  · show max 0 ((0 : Int) - now1) = 0
    exact max_eq_left (by omega)
  · obtain ⟨h1, h2⟩ := intents_cooldown_frame intents
      (init (World.fresh now1 globalRes) isEnabled cooldown color isZoomedIn panX panY)
    have h3 : (init (World.fresh now1 globalRes) isEnabled cooldown color isZoomedIn panX
        panY).client.cooldownEndTime = 0 ∧
        (init (World.fresh now1 globalRes) isEnabled cooldown color isZoomedIn panX panY).now
          = now1 := by
      cases isEnabled <;> cases color <;>
        simp [init, setColor, setZoom, setOffset, World.fresh, Client.fresh]
    simp only [getCooldownTimeRemaining, h1, h2, h3.1, h3.2]
    exact max_eq_left (by omega)
  · simp only [getCooldownTimeRemaining]
    exact max_le_max (le_refl 0) (by omega)

theorem getCooldownTimeRemaining_spec_witness :
    (0 : Int) ≤ 1000 ∧ (1000 : Int) ≤ 4000 ∧
    getCooldownTimeRemaining (World.fresh 1000 none) = 0 ∧
    getCooldownTimeRemaining { (setCooldownTime (World.fresh 1000 none) 5000).2 with now := 4000 } ≤
      getCooldownTimeRemaining { (setCooldownTime (World.fresh 1000 none) 5000).2 with now := 1000 } :=
  ⟨by decide, by decide,
    (getCooldownTimeRemaining_spec (setCooldownTime (World.fresh 1000 none) 5000).2 1000 4000 none
      true 300000 none none none none [] (by decide) (by decide)).2.2.1,
    (getCooldownTimeRemaining_spec (setCooldownTime (World.fresh 1000 none) 5000).2 1000 4000 none
      true 300000 none none none none [] (by decide) (by decide)).2.2.2.2⟩

/-! ## Tracking of the cooldown promise -/

theorem tracking_fresh (now : Int) (globalRes : Option Int) :
    Tracking (World.fresh now globalRes) := by
  simp [Tracking, World.fresh, Client.fresh]

theorem tracking_of_frame {w w' : World} (h : Tracking w) (ht : w'.timers = w.timers)
    (hd : w'.deferreds = w.deferreds) (hr : w'.resolved = w.resolved)
    (hp : w'.client.cooldownPromise = w.client.cooldownPromise) : Tracking w' := by
  unfold Tracking
  rw [ht, hd, hr, hp]
  exact h

/-- Among pending timeouts with distinct deferreds, the others differ from the
`k`-th in their deferred. -/
theorem deferred_ne_of_mem_eraseIdx {l : List Timer} (hn : (l.map Timer.deferred).Nodup)
    {k : Nat} {t t' : Timer} (hk : l[k]? = some t) (hm : t' ∈ l.eraseIdx k) :
    t'.deferred ≠ t.deferred := by
  obtain ⟨i, hik, hi⟩ := List.mem_eraseIdx_iff_getElem?.1 hm
  intro heq
  have hlt : i < (l.map Timer.deferred).length := by
    rw [List.length_map]
    by_contra hge
    rw [List.getElem?_eq_none (by omega)] at hi
    cases hi
  have hsame : (l.map Timer.deferred)[i]? = (l.map Timer.deferred)[k]? := by
    simp [hi, hk, heq]
  exact hik (List.getElem?_inj hlt hn hsame)

theorem tracking_setCooldownTime (w : World) (cooldownTime : Int) (h : Tracking w) :
    Tracking (setCooldownTime w cooldownTime).2 := by
  obtain ⟨h1, h2, h3, h4, -⟩ := h
  refine ⟨?_, ?_, ?_, ?_, ?_⟩
  · intro t ht
    simp only [setCooldownTime, List.mem_append, List.mem_singleton] at ht ⊢
    rcases ht with ht | ht
    · exact Nat.lt_succ_of_lt (h1 t ht)
    · rw [ht]; exact Nat.lt_succ_self _
  · intro r hr
    exact Nat.lt_succ_of_lt (h2 r hr)
  · show ((w.timers ++ [Timer.mk w.deferreds cooldownTime w.now]).map Timer.deferred).Nodup
    rw [List.map_append, List.nodup_append]
    refine ⟨h3, by simp, ?_⟩
    intro a ha hb
    simp only [List.map_cons, List.map_nil, List.mem_singleton] at hb
    obtain ⟨t, ht, hta⟩ := List.mem_map.1 ha
    have := h1 t ht
    omega
  · intro t ht r hr
    simp only [setCooldownTime, List.mem_append, List.mem_singleton] at ht
    rcases ht with ht | ht
    · exact h4 t ht r hr
    · rw [ht]
      have := h2 r hr
      show r.1 ≠ w.deferreds
      omega
  · intro p hp
    have hp' : w.deferreds = p := by
      simpa [setCooldownTime] using hp
    subst hp'
    refine ⟨⟨Timer.mk w.deferreds cooldownTime w.now, by simp [setCooldownTime], rfl⟩, ?_⟩
    intro t ht
    simp only [setCooldownTime, List.mem_append, List.mem_singleton] at ht
    rcases ht with ht | ht
    · exact Nat.le_of_lt (h1 t ht)
    · rw [ht]

theorem tracking_fireTimer (w : World) (k : Nat) (h : Tracking w) : Tracking (fireTimer w k) := by
  unfold fireTimer
  cases hk : w.timers[k]? with
  | none => exact h
  | some t =>
    simp only []
    split_ifs
    · obtain ⟨h1, h2, h3, h4, -⟩ := h
      have htm : t ∈ w.timers := List.getElem?_mem hk
      refine ⟨?_, ?_, ?_, ?_, ?_⟩
      · intro t' ht'
        exact h1 t' (List.mem_of_mem_eraseIdx ht')
      · intro r hr
        simp only [setCooldownTime.onTimeout, enable, List.mem_append, List.mem_singleton] at hr
        rcases hr with hr | hr
        · exact h2 r hr
        · rw [hr]; exact h1 t htm
      · exact List.Nodup.sublist ((List.eraseIdx_sublist w.timers k).map Timer.deferred) h3
      · intro t' ht' r hr
        simp only [setCooldownTime.onTimeout, enable, List.mem_append, List.mem_singleton] at hr
        have ht'' : t' ∈ w.timers.eraseIdx k := ht'
        rcases hr with hr | hr
        · exact h4 t' (List.mem_of_mem_eraseIdx ht'') r hr
        · rw [hr]
          exact fun heq => deferred_ne_of_mem_eraseIdx h3 hk ht'' heq.symm
      · intro p hp
        simp [setCooldownTime.onTimeout, enable] at hp
    · exact h

theorem tracking_whenCooldownEnds (w : World) (h : Tracking w) :
    Tracking (whenCooldownEnds w).2 := by
  unfold whenCooldownEnds
  cases hp : w.client.cooldownPromise with
  | some p => exact h
  | none =>
    obtain ⟨h1, h2, h3, h4, -⟩ := h
    refine ⟨?_, ?_, h3, ?_, ?_⟩
    · intro t ht
      exact Nat.lt_succ_of_lt (h1 t ht)
    · intro r hr
      simp only [List.mem_append, List.mem_singleton] at hr
      rcases hr with hr | hr
      · exact Nat.lt_succ_of_lt (h2 r hr)
      · rw [hr]; exact Nat.lt_succ_self _
    · intro t ht r hr
      simp only [List.mem_append, List.mem_singleton] at hr
      rcases hr with hr | hr
      · exact h4 t ht r hr
      · rw [hr]
        have := h1 t ht
        show w.deferreds ≠ t.deferred
        omega
    · intro p hp'
      simp [hp] at hp'

theorem tracking_step (w : World) (e : Event) (h : Tracking w) : Tracking (step w e) := by
  cases e with
  | intent i =>
    obtain ⟨-, -, hp, ht, hd, hr⟩ := intent_cooldown_frame w i
    exact tracking_of_frame h ht hd hr hp
  | queryOk waitTime =>
    simp only [step]
    split_ifs
    · exact h
    · exact tracking_setCooldownTime _ _ (tracking_of_frame h rfl rfl rfl rfl)
  | queryFailed =>
    simp only [step]
    split_ifs
    · exact h
    · exact tracking_setCooldownTime _ _ (tracking_of_frame h rfl rfl rfl rfl)
  | drawOk k responseJSON =>
    simp only [step]
    cases hk : w.draws[k]? with
    | none => exact h
    | some d => exact tracking_setCooldownTime _ _ (tracking_of_frame h rfl rfl rfl rfl)
  | drawFailed k jqXHR =>
    simp only [step]
    cases hk : w.draws[k]? with
    | none => exact h
    | some d =>
      simp only [drawTile.onError, playClip]
      cases hg : w.globalRes with
      | none => exact tracking_of_frame h rfl rfl rfl rfl
      | some s => exact tracking_setCooldownTime _ _ (tracking_of_frame h rfl rfl rfl rfl)
  | timeout k => exact tracking_fireTimer w k h
  | elapse ms => exact tracking_of_frame h rfl rfl rfl rfl

theorem tracking_init (w : World) (isEnabled : Bool) (cooldown : Int) (color : Option String)
    (isZoomedIn : Option Bool) (panX panY : Option ℚ) (h : Tracking w) :
    Tracking (init w isEnabled cooldown color isZoomedIn panX panY) := by
  apply tracking_of_frame h <;> cases isEnabled <;> cases color <;>
    simp [init, setColor, setZoom, setOffset]

theorem tracking_call (w : World) (c : Call) (h : Tracking w) : Tracking (c.apply w) := by
  cases c with
  | event e => exact tracking_step w e h
  | init isEnabled cooldown color isZoomedIn panX panY =>
    exact tracking_init w isEnabled cooldown color isZoomedIn panX panY h
  | setCooldownTime cooldownTime => exact tracking_setCooldownTime w cooldownTime h
  | whenCooldownEnds => exact tracking_whenCooldownEnds w h
  | enable => exact tracking_of_frame h rfl rfl rfl rfl
  | disable => exact tracking_of_frame h rfl rfl rfl rfl

theorem tracking_calls (cs : List Call) (w : World) (h : Tracking w) : Tracking (calls w cs) := by
  induction cs generalizing w with
  | nil => exact h
  | cons c cs ih => exact ih (c.apply w) (tracking_call w c h)

/-- C14: after any calls on the fresh page, `whenCooldownEnds` leaves the
controller's fields and the pending timeouts as they are. With no promise tracked
it returns a new deferred that is resolved on return. With a promise `p` tracked
it returns `p` and changes nothing at all; `p` is not resolved, its timeout is
still pending, and it is the newest of the pending timeouts. Right after
`setCooldownTime` it returns the very promise `setCooldownTime` returned. -/
theorem whenCooldownEnds_spec (now : Int) (globalRes : Option Int) (cs : List Call)
    (cooldownTime : Int) :
    (whenCooldownEnds (calls (World.fresh now globalRes) cs)).2.client =
      (calls (World.fresh now globalRes) cs).client ∧
    (whenCooldownEnds (calls (World.fresh now globalRes) cs)).2.timers =
      (calls (World.fresh now globalRes) cs).timers ∧
    (match (calls (World.fresh now globalRes) cs).client.cooldownPromise with
      | none =>
        (whenCooldownEnds (calls (World.fresh now globalRes) cs)).1 =
          Handle.resolvedNow (calls (World.fresh now globalRes) cs).deferreds ∧
        (whenCooldownEnds (calls (World.fresh now globalRes) cs)).2.resolved =
          (calls (World.fresh now globalRes) cs).resolved ++
            [((calls (World.fresh now globalRes) cs).deferreds,
              (calls (World.fresh now globalRes) cs).client)]
      | some p =>
        whenCooldownEnds (calls (World.fresh now globalRes) cs) =
          (Handle.tracked p, calls (World.fresh now globalRes) cs) ∧
        p ∉ (calls (World.fresh now globalRes) cs).resolved.map Prod.fst ∧
        p ∈ (calls (World.fresh now globalRes) cs).timers.map Timer.deferred ∧
        (calls (World.fresh now globalRes) cs).timers.all (fun t => decide (t.deferred ≤ p))
          = true) ∧
    (whenCooldownEnds (setCooldownTime (calls (World.fresh now globalRes) cs) cooldownTime).2).1 =
      Handle.tracked (setCooldownTime (calls (World.fresh now globalRes) cs) cooldownTime).1 := by
  have htr := tracking_calls cs _ (tracking_fresh now globalRes)
  generalize calls (World.fresh now globalRes) cs = w at htr ⊢
  obtain ⟨-, -, -, h4, h5⟩ := htr
  refine ⟨?_, ?_, ?_, rfl⟩
  · unfold whenCooldownEnds
    cases w.client.cooldownPromise <;> rfl
  · unfold whenCooldownEnds
    cases w.client.cooldownPromise <;> rfl
  · cases hp : w.client.cooldownPromise with
    | none =>
      have hw : whenCooldownEnds w =
          (Handle.resolvedNow w.deferreds,
            { w with deferreds := w.deferreds + 1,
                     resolved := w.resolved ++ [(w.deferreds, w.client)] }) := by
        simp only [whenCooldownEnds, hp]
      rw [hw]
      exact ⟨rfl, rfl⟩
    | some p =>
      obtain ⟨⟨t, ht, htp⟩, hle⟩ := h5 p hp
      have hw : whenCooldownEnds w = (Handle.tracked p, w) := by
        simp only [whenCooldownEnds, hp]
      refine ⟨hw, ?_, ?_, ?_⟩
      · intro hmem
        obtain ⟨r, hr, hrp⟩ := List.mem_map.1 hmem
        exact h4 t ht r hr (hrp.trans htp.symm)
      · exact List.mem_map.2 ⟨t, ht, htp⟩
      · rw [List.all_eq_true]
        intro t' ht'
        exact decide_eq_true (hle t' ht')

/-- C18: two cooldowns of ten seconds, started at clock 0 and at clock 5000. When
the timeout of the first fires at clock 10000, the second cooldown has five
seconds left and its timeout is pending with its promise unresolved, but the
callback of the first has set `cooldownPromise` to `null` and `enabled` to
`true`: `whenCooldownEnds` returns a new deferred that is resolved on return, not
the promise of the second cooldown. -/
theorem superseded_timeout_clears_promise :
    sampleSuperseded.now = 10000 ∧
    sampleSuperseded.timers = [Timer.mk 1 10000 5000] ∧
    getCooldownTimeRemaining sampleSuperseded = 5000 ∧
    sampleSuperseded.resolved.map Prod.fst = [0] ∧
    sampleSuperseded.client.cooldownPromise = none ∧
    (whenCooldownEnds sampleSuperseded).1 = Handle.resolvedNow 2 ∧
    (whenCooldownEnds sampleSuperseded).1 ≠ Handle.tracked 1 ∧
    (whenCooldownEnds sampleSuperseded).2.resolved.map Prod.fst = [0, 2] ∧
    sampleSuperseded.client.enabled = true := by
  refine ⟨rfl, rfl, rfl, rfl, rfl, rfl, by decide, rfl, rfl⟩

/-! ## Camera motion -/

theorem lerp_self (a t : ℚ) : lerp a a t = a := by
  simp [lerp]

theorem tick_eq_parts (w : World) : tick w = tick.panPart (tick.zoomPart w) := rfl

theorem panPart_eq_spec (w : World) : tick.panPart w = panStepSpec w := by
  have hs : PAN_LERP_SPEED = 2 / 5 := by norm_num [PAN_LERP_SPEED]
  by_cases hx : w.client._panX = w.client.panX <;> by_cases hy : w.client._panY = w.client.panY
  · simp [tick.panPart, panStepSpec, hx, hy]
  · simp [tick.panPart, panStepSpec, hx, hy, hs, lerp_self]
  · simp [tick.panPart, panStepSpec, hx, hy, hs, lerp_self]
  · simp [tick.panPart, panStepSpec, hx, hy, hs]

/-- What one `tick` does to the zoom and pan fields, in exact arithmetic. -/
theorem tick_fields (w : World) :
    (tick w).client.zoom = w.client.zoom ∧ (tick w).client.panX = w.client.panX ∧
    (tick w).client.panY = w.client.panY ∧
    (tick w).client._zoom = lerp w.client._zoom w.client.zoom (1 / 5) ∧
    (tick w).client._panX = lerp w.client._panX w.client.panX (2 / 5) ∧
    (tick w).client._panY = lerp w.client._panY w.client.panY (2 / 5) := by
  have hz : ZOOM_LERP_SPEED = 1 / 5 := by norm_num [ZOOM_LERP_SPEED]
  rw [tick_eq_parts, panPart_eq_spec]
  by_cases h0 : w.client._zoom = w.client.zoom <;>
    by_cases hx : w.client._panX = w.client.panX <;>
      by_cases hy : w.client._panY = w.client.panY <;>
        simp [tick.zoomPart, panStepSpec, h0, hx, hy, hz, lerp_self]

/-- What one `tick` pushes to the camera. -/
theorem tick_camera (w : World) :
    (tick w).camera =
      w.camera ++
        (if w.client._zoom ≠ w.client.zoom then
          [CameraCall.updateScale (lerp w.client._zoom w.client.zoom (1 / 5))] else []) ++
        (if w.client._panX ≠ w.client.panX ∨ w.client._panY ≠ w.client.panY then
          [CameraCall.updateTranslate (lerp w.client._panX w.client.panX (2 / 5))
            (lerp w.client._panY w.client.panY (2 / 5))] else []) := by
  have hz : ZOOM_LERP_SPEED = 1 / 5 := by norm_num [ZOOM_LERP_SPEED]
  rw [tick_eq_parts, panPart_eq_spec]
  by_cases h0 : w.client._zoom = w.client.zoom <;>
    by_cases hx : w.client._panX = w.client.panX <;>
      by_cases hy : w.client._panY = w.client.panY <;>
        simp [tick.zoomPart, panStepSpec, h0, hx, hy, hz]

/-- C19: the offset part of `tick`, which interpolates each axis only when it
differs from its target, is the pan step of the spec: nothing when both axes are
at their targets, otherwise both axes become `lerp(current, target, 2/5)` and one
`updateTranslate` carries both new values. The whole `tick` is that step after
the zoom part. -/
theorem tick_panPart_refines (w : World) :
    tick.panPart w = panStepSpec w ∧ tick w = panStepSpec (tick.zoomPart w) :=
  ⟨panPart_eq_spec w, by rw [tick_eq_parts, panPart_eq_spec]⟩

/-- After `n` ticks each gap between current and target has shrunk by the
factor `4/5` (zoom) or `3/5` (pan) per tick; the targets have not moved. -/
theorem ticks_gap (w : World) (n : Nat) :
    (ticks n w).client.zoom = w.client.zoom ∧ (ticks n w).client.panX = w.client.panX ∧
    (ticks n w).client.panY = w.client.panY ∧
    (ticks n w).client._zoom - w.client.zoom = (4 / 5) ^ n * (w.client._zoom - w.client.zoom) ∧
    (ticks n w).client._panX - w.client.panX = (3 / 5) ^ n * (w.client._panX - w.client.panX) ∧
    (ticks n w).client._panY - w.client.panY = (3 / 5) ^ n * (w.client._panY - w.client.panY) := by
  induction n with
  | zero => simp [ticks]
  | succ n ih =>
    obtain ⟨h1, h2, h3, h4, h5, h6⟩ := ih
    obtain ⟨t1, t2, t3, t4, t5, t6⟩ := tick_fields (ticks n w)
    refine ⟨t1.trans h1, t2.trans h2, t3.trans h3, ?_, ?_, ?_⟩
    · show (tick (ticks n w)).client._zoom - w.client.zoom = _
      rw [t4, h1, lerp, pow_succ]
      linear_combination (4 / 5 : ℚ) * h4
    · show (tick (ticks n w)).client._panX - w.client.panX = _
      rw [t5, h2, lerp, pow_succ]
      linear_combination (3 / 5 : ℚ) * h5
    · show (tick (ticks n w)).client._panY - w.client.panY = _
      rw [t6, h3, lerp, pow_succ]
      linear_combination (3 / 5 : ℚ) * h6

/-- C15: from `_zoom = 4`, after `setTargetZoom 40`, the zoom after `n` ticks is
`40 - 36 * (4/5)^n` with the target still 40; it grows strictly with every tick
and stays strictly below 40; every tick pushes the new value to the camera with
`updateScale` (followed at most by the translate update of the same tick); and
after `m >= 37` ticks it is within `1/100` of 40. -/
theorem zoom_converges (w : World) (n m : Nat) (h4 : w.client._zoom = 4) (hm : 37 ≤ m) :
    (ticks n (setTargetZoom w 40)).client._zoom = 40 - 36 * (4 / 5) ^ n ∧
    (ticks n (setTargetZoom w 40)).client.zoom = 40 ∧
    (ticks n (setTargetZoom w 40)).client._zoom <
      (ticks (n + 1) (setTargetZoom w 40)).client._zoom ∧
    (ticks n (setTargetZoom w 40)).client._zoom < 40 ∧
    (∃ rest, rest.length ≤ 1 ∧
      (ticks (n + 1) (setTargetZoom w 40)).camera =
        (ticks n (setTargetZoom w 40)).camera ++
          CameraCall.updateScale (40 - 36 * (4 / 5) ^ (n + 1)) :: rest) ∧
    |40 - (ticks m (setTargetZoom w 40)).client._zoom| < 1 / 100 := by
  have hval : ∀ k : Nat, (ticks k (setTargetZoom w 40)).client._zoom = 40 - 36 * (4 / 5) ^ k := by
    intro k
    obtain ⟨-, -, -, hg, -, -⟩ := ticks_gap (setTargetZoom w 40) k
    have h0 : (setTargetZoom w 40).client.zoom = 40 := rfl
    have h1 : (setTargetZoom w 40).client._zoom = 4 := h4
    rw [h0, h1] at hg
    linear_combination hg
  have htgt : (ticks n (setTargetZoom w 40)).client.zoom = 40 :=
    (ticks_gap (setTargetZoom w 40) n).1
  have hpos : ∀ k : Nat, (0 : ℚ) < (4 / 5) ^ k := fun k => by positivity
  refine ⟨hval n, htgt, ?_, ?_, ?_, ?_⟩
  · rw [hval n, hval (n + 1), pow_succ]
    have := hpos n
    linarith
  · rw [hval n]
    have := hpos n
    linarith
  · have hne : (ticks n (setTargetZoom w 40)).client._zoom ≠
        (ticks n (setTargetZoom w 40)).client.zoom := by
      rw [hval n, htgt]
      have := hpos n
      intro h
      linarith
    have hnew : lerp (ticks n (setTargetZoom w 40)).client._zoom
        (ticks n (setTargetZoom w 40)).client.zoom (1 / 5) = 40 - 36 * (4 / 5) ^ (n + 1) := by
      rw [← hval (n + 1)]
      exact (tick_fields (ticks n (setTargetZoom w 40))).2.2.2.1.symm
    have hc := tick_camera (ticks n (setTargetZoom w 40))
    rw [if_pos hne, hnew] at hc
    refine ⟨if (ticks n (setTargetZoom w 40)).client._panX ≠
          (ticks n (setTargetZoom w 40)).client.panX ∨
        (ticks n (setTargetZoom w 40)).client._panY ≠
          (ticks n (setTargetZoom w 40)).client.panY then
        [CameraCall.updateTranslate
          (lerp (ticks n (setTargetZoom w 40)).client._panX
            (ticks n (setTargetZoom w 40)).client.panX (2 / 5))
          (lerp (ticks n (setTargetZoom w 40)).client._panY
            (ticks n (setTargetZoom w 40)).client.panY (2 / 5))]
      else [], ?_, ?_⟩
    · split_ifs <;> simp
    · show (tick (ticks n (setTargetZoom w 40))).camera = _
      rw [hc, List.append_assoc]
      rfl
  · rw [hval m]
    have h37 : (4 / 5 : ℚ) ^ m ≤ (4 / 5) ^ 37 :=
      pow_le_pow_of_le_one (by norm_num) (by norm_num) hm
    have hsmall : (36 : ℚ) * (4 / 5) ^ 37 < 1 / 100 := by norm_num
    have := hpos m
    rw [abs_lt]
    constructor <;> linarith

theorem zoom_converges_witness :
    (init (World.fresh 0 none) true 300000 none (some false) none none).client._zoom = 4 ∧
    37 ≤ 37 ∧
    (ticks 1 (setTargetZoom (init (World.fresh 0 none) true 300000 none (some false) none none)
      40)).client._zoom = 40 - 36 * (4 / 5) ^ 1 ∧
    |40 - (ticks 37 (setTargetZoom (init (World.fresh 0 none) true 300000 none (some false) none
      none) 40)).client._zoom| < 1 / 100 :=
  ⟨rfl, le_refl 37,
    (zoom_converges (init (World.fresh 0 none) true 300000 none (some false) none none) 1 37 rfl
      (le_refl 37)).1,
    (zoom_converges (init (World.fresh 0 none) true 300000 none (some false) none none) 1 37 rfl
      (le_refl 37)).2.2.2.2.2⟩

/-- C16: `setZoom z` makes `_zoom` and `zoom` both `z` and pushes `updateScale z`
once; the `tick` right after leaves both at `z` and pushes no scale update (at
most a translate update). `setOffset x y` makes current and target pan both
`(x, y)` and pushes `updateTranslate x y` once; the `tick` right after leaves
them there and pushes no translate update (at most a scale update). -/
theorem set_then_tick (w : World) (z x y : ℚ) :
    (setZoom w z).client._zoom = z ∧ (setZoom w z).client.zoom = z ∧
    (setZoom w z).camera = w.camera ++ [CameraCall.updateScale z] ∧
    (tick (setZoom w z)).client._zoom = z ∧ (tick (setZoom w z)).client.zoom = z ∧
    ((tick (setZoom w z)).camera = (setZoom w z).camera ∨
      ∃ a b, (tick (setZoom w z)).camera =
        (setZoom w z).camera ++ [CameraCall.updateTranslate a b]) ∧
    (setOffset w x y).client._panX = x ∧ (setOffset w x y).client.panX = x ∧
    (setOffset w x y).client._panY = y ∧ (setOffset w x y).client.panY = y ∧
    (setOffset w x y).camera = w.camera ++ [CameraCall.updateTranslate x y] ∧
    (tick (setOffset w x y)).client._panX = x ∧ (tick (setOffset w x y)).client.panX = x ∧
    (tick (setOffset w x y)).client._panY = y ∧ (tick (setOffset w x y)).client.panY = y ∧
    ((tick (setOffset w x y)).camera = (setOffset w x y).camera ∨
      ∃ s, (tick (setOffset w x y)).camera =
        (setOffset w x y).camera ++ [CameraCall.updateScale s]) := by
  obtain ⟨a1, -, -, a4, -, -⟩ := tick_fields (setZoom w z)
  obtain ⟨-, b2, b3, -, b5, b6⟩ := tick_fields (setOffset w x y)
  have hz1 : (setZoom w z).client._zoom = z := rfl
  have hz2 : (setZoom w z).client.zoom = z := rfl
  have hx1 : (setOffset w x y).client._panX = x := rfl
  have hx2 : (setOffset w x y).client.panX = x := rfl
  have hy1 : (setOffset w x y).client._panY = y := rfl
  have hy2 : (setOffset w x y).client.panY = y := rfl
  refine ⟨rfl, rfl, rfl, ?_, ?_, ?_, rfl, rfl, rfl, rfl, rfl, ?_, ?_, ?_, ?_, ?_⟩
  · rw [a4, hz1, hz2, lerp_self]
  · exact a1.trans hz2
  · have hc := tick_camera (setZoom w z)
    rw [hz1, hz2] at hc
    simp only [ne_eq, not_true_eq_false, if_false, List.append_nil] at hc
    by_cases hp : ¬(setZoom w z).client._panX = (setZoom w z).client.panX ∨
        ¬(setZoom w z).client._panY = (setZoom w z).client.panY
    · rw [if_pos hp] at hc
      exact Or.inr ⟨_, _, hc⟩
    · rw [if_neg hp, List.append_nil] at hc
      exact Or.inl hc
  · rw [b5, hx1, hx2, lerp_self]
  · exact b2.trans hx2
  · rw [b6, hy1, hy2, lerp_self]
  · exact b3.trans hy2
  · have hc := tick_camera (setOffset w x y)
    rw [hx1, hx2, hy1, hy2] at hc
    simp only [ne_eq, not_true_eq_false, or_self, if_false, List.append_nil] at hc
    by_cases hp : ¬(setOffset w x y).client._zoom = (setOffset w x y).client.zoom
    · rw [if_pos hp] at hc
      exact Or.inr ⟨_, hc⟩
    · rw [if_neg hp, List.append_nil] at hc
      exact Or.inl hc

/-- C17: `toggleZoom` flips `isZoomedIn`, sets the target `zoom` to 4 when it was
zoomed in and to 40 when it was not, plays `SFX_ZOOM_OUT` resp. `SFX_ZOOM_IN`, and
changes nothing else (in particular not `_zoom`). The two clips differ, so two
calls in a row play one of each, and they restore `isZoomedIn`. -/
theorem toggleZoom_spec (w : World) :
    toggleZoom w =
      { w with
        client :=
          { w.client with
            zoom := if w.client.isZoomedIn then 4 else 40
            isZoomedIn := !w.client.isZoomedIn }
        audio := w.audio ++ [if w.client.isZoomedIn then SFX_ZOOM_OUT else SFX_ZOOM_IN] } ∧
    (toggleZoom w).client._zoom = w.client._zoom ∧
    SFX_ZOOM_IN ≠ SFX_ZOOM_OUT ∧
    (toggleZoom (toggleZoom w)).client.isZoomedIn = w.client.isZoomedIn ∧
    (toggleZoom (toggleZoom w)).audio =
      w.audio ++ [if w.client.isZoomedIn then SFX_ZOOM_OUT else SFX_ZOOM_IN,
        if w.client.isZoomedIn then SFX_ZOOM_IN else SFX_ZOOM_OUT] := by
  refine ⟨?_, ?_, by decide, ?_, ?_⟩ <;>
    cases h : w.client.isZoomedIn <;>
      simp [toggleZoom, setTargetZoom, playClip, h, ZOOM_MIN_SCALE, ZOOM_MAX_SCALE]

/-- The zoom and pan fields after the intents that are not about the camera. -/
theorem gate_intents_camera_frame (w : World) (color : String) (announce : Option Bool)
    (x y : Int) :
    ((setColor w color announce).client._zoom = w.client._zoom ∧
      (setColor w color announce).client.zoom = w.client.zoom ∧
      (setColor w color announce).client._panX = w.client._panX ∧
      (setColor w color announce).client.panX = w.client.panX ∧
      (setColor w color announce).client._panY = w.client._panY ∧
      (setColor w color announce).client.panY = w.client.panY) ∧
    ((drawTile w x y).client._zoom = w.client._zoom ∧
      (drawTile w x y).client.zoom = w.client.zoom ∧
      (drawTile w x y).client._panX = w.client._panX ∧
      (drawTile w x y).client.panX = w.client.panX ∧
      (drawTile w x y).client._panY = w.client._panY ∧
      (drawTile w x y).client.panY = w.client.panY) ∧
    ((toggleZoom w).client._zoom = w.client._zoom ∧
      (toggleZoom w).client._panX = w.client._panX ∧
      (toggleZoom w).client.panX = w.client.panX ∧
      (toggleZoom w).client._panY = w.client._panY ∧
      (toggleZoom w).client.panY = w.client.panY) := by
  refine ⟨?_, ?_, ?_⟩
  · simp only [setColor, playClip]
    split_ifs <;> simp
  · simp only [drawTile, playClip, disable]
    split_ifs <;> simp
  · simp only [toggleZoom, setTargetZoom, playClip]
    split_ifs <;> simp

/-- In exact arithmetic `lerp` with a rate other than 1 does not reach the
target from elsewhere. -/
theorem lerp_ne_target {a b t : ℚ} (hab : a ≠ b) (ht : t ≠ 1) : lerp a b t ≠ b := by
  intro h
  have h1 : (a - b) * (1 - t) = 0 := by
    unfold lerp at h
    linear_combination h
  rcases mul_eq_zero.1 h1 with h2 | h2
  · exact hab (sub_eq_zero.1 h2)
  · exact ht (sub_eq_zero.1 h2).symm

/-- C20, as stated, fails in its last clause: after `init` (zoomed in, `_zoom`
and `zoom` both 40) one `toggleZoom` makes the target 4, so current and target
differ, and a second `toggleZoom` makes them equal again, with no `setZoom`. -/
theorem equal_without_snap_counterexample :
    (toggleZoom (init (World.fresh 0 none) true 300000 none none none none)).client._zoom ≠
      (toggleZoom (init (World.fresh 0 none) true 300000 none none none none)).client.zoom ∧
    (toggleZoom (toggleZoom (init (World.fresh 0 none) true 300000 none none none
        none))).client._zoom =
      (toggleZoom (toggleZoom (init (World.fresh 0 none) true 300000 none none none
        none))).client.zoom := by
  constructor
  · show ZOOM_MAX_SCALE ≠ ZOOM_MIN_SCALE
    norm_num [ZOOM_MAX_SCALE, ZOOM_MIN_SCALE]
  · rfl

/-- C20, amended: in exact arithmetic, after `n` ticks the gap between `_zoom`
and `zoom` is `(4/5)^n` times the initial gap, and the gap of each pan axis is
`(3/5)^n` times the initial one; so a value that lags its target still lags
it after any number of ticks. A user intent makes a lagging value equal to its
target only if it is `setZoom` (resp. `setOffset`), or if it is `toggleZoom` or
`setTargetZoom` (resp. `setTargetOffset`) and puts the target where the current
value already is, leaving the current value alone. -/
theorem tick_never_reaches_target (w : World) (n : Nat) (i : Intent) :
    ((ticks n w).client._zoom - (ticks n w).client.zoom =
        (4 / 5) ^ n * (w.client._zoom - w.client.zoom) ∧
      (ticks n w).client._panX - (ticks n w).client.panX =
        (3 / 5) ^ n * (w.client._panX - w.client.panX) ∧
      (ticks n w).client._panY - (ticks n w).client.panY =
        (3 / 5) ^ n * (w.client._panY - w.client.panY)) ∧
    ((w.client._zoom = w.client.zoom ∨ (ticks n w).client._zoom ≠ (ticks n w).client.zoom) ∧
      (w.client._panX = w.client.panX ∨ (ticks n w).client._panX ≠ (ticks n w).client.panX) ∧
      (w.client._panY = w.client.panY ∨ (ticks n w).client._panY ≠ (ticks n w).client.panY)) ∧
    (w.client._zoom = w.client.zoom ∨ (i.apply w).client._zoom ≠ (i.apply w).client.zoom ∨
      (∃ z, i = Intent.setZoom z) ∨
      ((i = Intent.toggleZoom ∨ ∃ z, i = Intent.setTargetZoom z) ∧
        (i.apply w).client.zoom = w.client._zoom ∧
        (i.apply w).client._zoom = w.client._zoom)) ∧
    (w.client._panX = w.client.panX ∨ (i.apply w).client._panX ≠ (i.apply w).client.panX ∨
      (∃ x y, i = Intent.setOffset x y) ∨
      ((∃ x y, i = Intent.setTargetOffset x y) ∧
        (i.apply w).client.panX = w.client._panX ∧
        (i.apply w).client._panX = w.client._panX)) ∧
    (w.client._panY = w.client.panY ∨ (i.apply w).client._panY ≠ (i.apply w).client.panY ∨
      (∃ x y, i = Intent.setOffset x y) ∨
      ((∃ x y, i = Intent.setTargetOffset x y) ∧
        (i.apply w).client.panY = w.client._panY ∧
        (i.apply w).client._panY = w.client._panY)) := by
  obtain ⟨g1, g2, g3, g4, g5, g6⟩ := ticks_gap w n
  have p45 : ∀ k : Nat, (4 / 5 : ℚ) ^ k ≠ 0 := fun k => pow_ne_zero k (by norm_num)
  have p35 : ∀ k : Nat, (3 / 5 : ℚ) ^ k ≠ 0 := fun k => pow_ne_zero k (by norm_num)
  -- a current value that an intent leaves alone either still differs from the
  -- target or the target was put onto it
  have keep : ∀ (tgt' : ℚ) {cur cur' : ℚ}, cur' = cur →
      cur' ≠ tgt' ∨ (tgt' = cur ∧ cur' = cur) := by
    intro tgt' cur cur' h
    by_cases he : cur' = tgt'
    · exact Or.inr ⟨he.symm.trans h, h⟩
    · exact Or.inl he
  have frame_ne : ∀ {cur cur' tgt tgt' : ℚ}, cur' = cur → tgt' = tgt → ¬cur = tgt →
      cur' ≠ tgt' := by
    intro cur cur' tgt tgt' h1 h2 h3 he
    exact h3 (h1.symm.trans (he.trans h2))
  obtain ⟨t1, t2, t3, t4, t5, t6⟩ := tick_fields w
  refine ⟨⟨by rw [g1]; exact g4, by rw [g2]; exact g5, by rw [g3]; exact g6⟩, ⟨?_, ?_, ?_⟩,
    ?_, ?_, ?_⟩
  · by_cases h : w.client._zoom = w.client.zoom
    · exact Or.inl h
    · right
      rw [g1]
      intro he
      rw [he, sub_self] at g4
      rcases mul_eq_zero.1 g4.symm with h0 | h0
      · exact p45 n h0
      · exact h (sub_eq_zero.1 h0)
  · by_cases h : w.client._panX = w.client.panX
    · exact Or.inl h
    · right
      rw [g2]
      intro he
      rw [he, sub_self] at g5
      rcases mul_eq_zero.1 g5.symm with h0 | h0
      · exact p35 n h0
      · exact h (sub_eq_zero.1 h0)
  · by_cases h : w.client._panY = w.client.panY
    · exact Or.inl h
    · right
      rw [g3]
      intro he
      rw [he, sub_self] at g6
      rcases mul_eq_zero.1 g6.symm with h0 | h0
      · exact p35 n h0
      · exact h (sub_eq_zero.1 h0)
  · by_cases h : w.client._zoom = w.client.zoom
    · exact Or.inl h
    · right
      cases i with
      | selectColor color announce =>
        obtain ⟨⟨a, b, -⟩, -, -⟩ := gate_intents_camera_frame w color announce 0 0
        exact Or.inl (frame_ne a b h)
      | requestDraw x y =>
        obtain ⟨-, ⟨a, b, -⟩, -⟩ := gate_intents_camera_frame w "" none x y
        exact Or.inl (frame_ne a b h)
      | toggleZoom =>
        obtain ⟨-, -, ⟨a, -⟩⟩ := gate_intents_camera_frame w "" none 0 0
        rcases keep ((toggleZoom w).client.zoom) a with hk | hk
        · exact Or.inl hk
        · exact Or.inr (Or.inr ⟨Or.inl rfl, hk⟩)
      | tick =>
        left; show (tick w).client._zoom ≠ (tick w).client.zoom
        rw [t4, t1]
        exact lerp_ne_target h (by norm_num)
      | setZoom z => exact Or.inr (Or.inl ⟨z, rfl⟩)
      | setOffset x y => exact Or.inl h
      | setTargetZoom z =>
        have a : (setTargetZoom w z).client._zoom = w.client._zoom := rfl
        rcases keep ((setTargetZoom w z).client.zoom) a with hk | hk
        · exact Or.inl hk
        · exact Or.inr (Or.inr ⟨Or.inr ⟨z, rfl⟩, hk⟩)
      | setTargetOffset x y => exact Or.inl h
  · by_cases h : w.client._panX = w.client.panX
    · exact Or.inl h
    · right
      cases i with
      | selectColor color announce =>
        obtain ⟨⟨-, -, a, b, -⟩, -, -⟩ := gate_intents_camera_frame w color announce 0 0
        exact Or.inl (frame_ne a b h)
      | requestDraw x y =>
        obtain ⟨-, ⟨-, -, a, b, -⟩, -⟩ := gate_intents_camera_frame w "" none x y
        exact Or.inl (frame_ne a b h)
      | toggleZoom =>
        obtain ⟨-, -, ⟨-, a, b, -⟩⟩ := gate_intents_camera_frame w "" none 0 0
        exact Or.inl (frame_ne a b h)
      | tick =>
        left; show (tick w).client._panX ≠ (tick w).client.panX
        rw [t5, t2]
        exact lerp_ne_target h (by norm_num)
      | setZoom z => exact Or.inl h
      | setOffset x y => exact Or.inr (Or.inl ⟨x, y, rfl⟩)
      | setTargetZoom z => exact Or.inl h
      | setTargetOffset x y =>
        have a : (setTargetOffset w x y).client._panX = w.client._panX := rfl
        rcases keep ((setTargetOffset w x y).client.panX) a with hk | hk
        · exact Or.inl hk
        · exact Or.inr (Or.inr ⟨⟨x, y, rfl⟩, hk⟩)
  · by_cases h : w.client._panY = w.client.panY
    · exact Or.inl h
    · right
      cases i with
      | selectColor color announce =>
        obtain ⟨⟨-, -, -, -, a, b⟩, -, -⟩ := gate_intents_camera_frame w color announce 0 0
        exact Or.inl (frame_ne a b h)
      | requestDraw x y =>
        obtain ⟨-, ⟨-, -, -, -, a, b⟩, -⟩ := gate_intents_camera_frame w "" none x y
        exact Or.inl (frame_ne a b h)
      | toggleZoom =>
        obtain ⟨-, -, ⟨-, -, -, a, b⟩⟩ := gate_intents_camera_frame w "" none 0 0
        exact Or.inl (frame_ne a b h)
      | tick =>
        left; show (tick w).client._panY ≠ (tick w).client.panY
        rw [t6, t3]
        exact lerp_ne_target h (by norm_num)
      | setZoom z => exact Or.inl h
      | setOffset x y => exact Or.inr (Or.inl ⟨x, y, rfl⟩)
      | setTargetZoom z => exact Or.inl h
      | setTargetOffset x y =>
        have a : (setTargetOffset w x y).client._panY = w.client._panY := rfl
        rcases keep ((setTargetOffset w x y).client.panY) a with hk | hk
        · exact Or.inl hk
        · exact Or.inr (Or.inr ⟨⟨x, y, rfl⟩, hk⟩)

end Place
